import Mathlib

/-!
Shallow embedding of the `tlang` evaluation core: the runtime value model of
`src/executer/value/mod.rs` and the tree-walking evaluator `Vm::eval_expr` of
`src/executer/vm.rs`.  The evaluator is embedded as a fuel-indexed function so
that every theorem is about terminating approximations; `Res.timeout` marks
fuel exhaustion and is never identified with any real outcome.  Rust host
panics (out-of-bounds indexing of the call-argument vector, `todo!()` branches
of `display_value`, invalid slice ranges) are modelled by the distinguished
outcome `panic`, kept separate from the language's own `Error` values.
The `f64` payload of `Value::Number` is modelled by `Rat`; the structural
facts proved below (which operand pairs succeed, which fail, what is bound
where) do not depend on floating-point rounding.
-/

namespace TLang

/-- Truncation toward zero of a rational number, modelling Rust's `as isize` /
`as i32` / `as usize` casts applied to a (finite, in-range) `f64`. -/
def ratTrunc (q : Rat) : Int := if 0 ≤ q then q.floor else q.ceil

/-- Rust's `%` on `f64` restricted to rationals: remainder with truncating
division, `a - b * trunc(a / b)`. -/
def ratMod (a b : Rat) : Rat := a - b * (ratTrunc (a / b) : Rat)

/-- Decimal rendering of a number, modelling `f64::to_string` on the rational
approximation (integral values print without a fractional part). -/
def numRender (q : Rat) : String :=
  if q.den = 1 then toString q.num else toString q

/-- `Literal` constants carried by `Expr::Literal` (from the matches in
`Vm::eval_expr`). -/
inductive Literal
  | num (n : Rat)
  | str (s : String)
  | bool (b : Bool)
deriving Repr

/-- `Op`, the binary operators dispatched by `Expr::BinOp`. -/
inductive Op
  | add | sub | mul | div | mod
  | eq | neq | gt | lt | ge | le
  | and | or
deriving Repr, DecidableEq

/-- `IOp`, the in-place operators dispatched by `Expr::IOp`. -/
inductive IOp
  | iadd | isub | imul | idiv
deriving Repr, DecidableEq

/-- The expression tree consumed by `Vm::eval_expr`.  The enum itself is
declared outside `src/`; its variants and field shapes are exactly those
matched in `vm.rs` (and listed in spec section 4.3).  `Ident` is an opaque
string, so identifiers are plain `String`s here. -/
inductive Expr
  | empty
  | block (body : List Expr)
  | lit (value : Literal)
  | ident (name : String)
  | binOp (op : Op) (left right : Expr)
  | ifThen (cond thenBr : Expr)
  | ifThenElse (cond thenBr elseBr : Expr)
  | assign (name : String) (value : Expr)
  | whileE (cond body : Expr)
  | forE (name : Expr) (iter : Expr) (body : Expr)
  | funDef (name : String) (args : List Expr) (body : Expr)
  | call (name : String) (args : List Expr)
  | listE (elems : List Expr)
  | index (name : Expr) (idx : Expr)
  | rangeE (start stop : Expr)
  | structDef (name : String) (fields : List Expr)
  | callStructE (name : String) (args : List (Expr × Expr))
  | getAttr (name attr : String)
  | implE (nameStruct nameMethod : String) (args : List Expr) (body : Expr)
  | getFunc (name func : String) (args : List Expr)
  | setVar (name : String) (value : Expr)
  | iop (op : IOp) (name : String) (value : Expr)
  | matchE (value : Expr) (cases : List (Expr × Expr))

/-- The runtime `Value` union.  Shapes follow the constructions in `vm.rs`
(`Function` carries name, parameter list and body; struct definitions carry a
method table).  Hash maps (struct field maps, method tables) are modelled as
association lists with overwrite-on-insert. -/
inductive Value
  | num (n : Rat)
  | str (s : String)
  | bool (b : Bool)
  | func (name : String) (args : List String) (body : Expr)
  | defStruct (name : String) (fields : List String) (function : List (String × Value))
  | callStruct (name : String) (fields : List (String × Value))
  | list (elems : List Value)
  | range (start stop : Int)
  | enum (variants : List String)
  | enumCall (name field : String)
  | none

/-- The `Type` descriptor union of `value/mod.rs`, used only in diagnostics. -/
inductive Ty
  | int | string | bool | list | func | range | enum
  | fieldEnum (name : String)
  | struct (name : String)
  | fieldStruct (name : String)
  | none
deriving Repr, DecidableEq

/-- Modelled from the spec: the error enum itself lives outside `src/`;
its variants and payloads are those listed in spec section 7 and constructed
throughout `vm.rs` and `value/mod.rs`.  `TypeMismatch` payloads are the
rendered expected/found descriptions. -/
inductive Error
  | varNotFound (name : String)
  | varAlreadyDefined (name : String)
  | typeMismatch (expected found : String)
  | cannotAdd (left right : String)
  | cannotSub (left right : String)
  | cannotMul (left right : String)
  | cannotDiv (left right : String)
  | cannotMod (left right : String)
  | cannotCompare (left right : String)
  | functionNotFound (name : String)
  | structNotFound (name : String)
  | attrNotFound (name : String)
  | indexOutOfBounds (index : Int) (name : String)
  | isBuiltin (name : String)

/-- Modelled from the spec: rendering of a `Type` descriptor into the `found`
string of a `TypeMismatch` payload (the display code lives outside `src/`;
no claim depends on the exact strings). -/
def tyRender : Ty → String
  | .int => "int"
  | .string => "string"
  | .bool => "bool"
  | .list => "list"
  | .func => "function"
  | .range => "range"
  | .enum => "enum"
  | .fieldEnum n => "enum " ++ n
  | .struct n => "struct " ++ n
  | .fieldStruct n => "struct " ++ n
  | .none => "None"

/-- `Value::get_type`. -/
def getType : Value → Ty
  | .num _ => .int
  | .str _ => .string
  | .bool _ => .bool
  | .func _ _ _ => .func
  | .list _ => .list
  | .range _ _ => .range
  | .callStruct n _ => .fieldStruct n
  | .defStruct n _ _ => .struct n
  | .none => .none
  | .enum _ => .enum
  | .enumCall n _ => .fieldEnum n

mutual
/-- `Value::display_value`.  The `todo!()` branches for `DefStruct`,
`CallStruct`, `Enum` and `EnumCall` abort the host process; they are modelled
as `Option.none`. -/
def displayValue : Value → Option String
  | .num n => some (numRender n)
  | .str s => some s
  | .bool b => some (if b then "true" else "false")
  | .func _ _ _ => some "function"
  | .list xs =>
    match displayItems xs with
    | some s => some ("[" ++ s ++ "]")
    | Option.none => Option.none
  | .range _ _ => some "range"
  | .none => some "None"
  | .defStruct _ _ _ => Option.none
  | .callStruct _ _ => Option.none
  | .enum _ => Option.none
  | .enumCall _ _ => Option.none

/-- Comma-space-joined renderings of list items (the loop inside
`display_value` for `Value::List`). -/
def displayItems : List Value → Option String
  | [] => some ""
  | [x] => displayValue x
  | x :: y :: rest =>
    match displayValue x with
    | some s =>
      match displayItems (y :: rest) with
      | some t => some (s ++ ", " ++ t)
      | Option.none => Option.none
    | Option.none => Option.none
end

/-- Outcome of a pure binary value operation: a value, a language error, or a
host panic (raised when building the error payload hits a `todo!()`
rendering). -/
inductive VRes
  | ok (v : Value)
  | err (e : Error)
  | panic

/-- Shared shape of the failure branches of the arithmetic operations in
`value/mod.rs`: render both operands (left first), panicking if a rendering
is unimplemented, and wrap the two strings with the given error
constructor. -/
def renderPairErr (mk : String → String → Error) (a b : Value) : VRes :=
  match displayValue a with
  | Option.none => .panic
  | some l =>
    match displayValue b with
    | Option.none => .panic
    | some r => .err (mk l r)

/-- `Value::add`. -/
def Value.add (self other : Value) : VRes :=
  match self, other with
  | .num a, .num b => .ok (.num (a + b))
  | _, _ => renderPairErr Error.cannotAdd self other

/-- `Value::sub`. -/
def Value.sub (self other : Value) : VRes :=
  match self, other with
  | .num a, .num b => .ok (.num (a - b))
  | _, _ => renderPairErr Error.cannotSub self other

/-- `Value::mul`. -/
def Value.mul (self other : Value) : VRes :=
  match self, other with
  | .num a, .num b => .ok (.num (a * b))
  | _, _ => renderPairErr Error.cannotMul self other

/-- `Value::div`. -/
def Value.div (self other : Value) : VRes :=
  match self, other with
  | .num a, .num b => .ok (.num (a / b))
  | _, _ => renderPairErr Error.cannotDiv self other

/-- `Value::modulo`. -/
def Value.modulo (self other : Value) : VRes :=
  match self, other with
  | .num a, .num b => .ok (.num (ratMod a b))
  | _, _ => renderPairErr Error.cannotMod self other

/-- `Value::eq`. -/
def Value.veq (self other : Value) : VRes :=
  match self, other with
  | .num a, .num b => .ok (.bool (a = b))
  | .str a, .str b => .ok (.bool (a = b))
  | .bool a, .bool b => .ok (.bool (a = b))
  | _, _ => renderPairErr Error.cannotCompare self other

/-- `Value::neq`. -/
def Value.vneq (self other : Value) : VRes :=
  match self, other with
  | .num a, .num b => .ok (.bool (a ≠ b))
  | .str a, .str b => .ok (.bool (a ≠ b))
  | .bool a, .bool b => .ok (.bool (a ≠ b))
  | _, _ => renderPairErr Error.cannotCompare self other

/-- `Value::gt`. -/
def Value.vgt (self other : Value) : VRes :=
  match self, other with
  | .num a, .num b => .ok (.bool (b < a))
  | _, _ => renderPairErr Error.cannotCompare self other

/-- `Value::lt`. -/
def Value.vlt (self other : Value) : VRes :=
  match self, other with
  | .num a, .num b => .ok (.bool (a < b))
  | _, _ => renderPairErr Error.cannotCompare self other

/-- `Value::ge`. -/
def Value.vge (self other : Value) : VRes :=
  match self, other with
  | .num a, .num b => .ok (.bool (b ≤ a))
  | _, _ => renderPairErr Error.cannotCompare self other

/-- `Value::le`. -/
def Value.vle (self other : Value) : VRes :=
  match self, other with
  | .num a, .num b => .ok (.bool (a ≤ b))
  | _, _ => renderPairErr Error.cannotCompare self other

/-- `Value::and`. -/
def Value.vand (self other : Value) : VRes :=
  match self, other with
  | .bool a, .bool b => .ok (.bool (a && b))
  | _, _ => renderPairErr Error.cannotCompare self other

/-- `Value::or`. -/
def Value.vor (self other : Value) : VRes :=
  match self, other with
  | .bool a, .bool b => .ok (.bool (a || b))
  | _, _ => renderPairErr Error.cannotCompare self other

/-- Dispatch table of `Expr::BinOp` in `Vm::eval_expr`. -/
def applyOp : Op → Value → Value → VRes
  | .add, a, b => a.add b
  | .sub, a, b => a.sub b
  | .mul, a, b => a.mul b
  | .div, a, b => a.div b
  | .mod, a, b => a.modulo b
  | .eq, a, b => a.veq b
  | .neq, a, b => a.vneq b
  | .gt, a, b => a.vgt b
  | .lt, a, b => a.vlt b
  | .ge, a, b => a.vge b
  | .le, a, b => a.vle b
  | .and, a, b => a.vand b
  | .or, a, b => a.vor b

/-- The user-binding map of a `Vm` (`HashMap<Ident, Value>`), modelled as an
association list; `setA` has HashMap `insert` semantics (overwrite). -/
abbrev Env := List (String × Value)

/-- `HashMap::get` on an association list. -/
def getA : List (String × Value) → String → Option Value
  | [], _ => Option.none
  | (k, v) :: rest, k' => if k = k' then some v else getA rest k'

/-- `HashMap::insert` on an association list: overwrite in place, else
append. -/
def setA : List (String × Value) → String → Value → List (String × Value)
  | [], k, v => [(k, v)]
  | (k', v') :: rest, k, v =>
    if k' = k then (k, v) :: rest else (k', v') :: setA rest k v

/-- The names in the fixed builtin table installed by `Vm::new`. -/
def builtinNames : List String := ["print", "println"]

/-- Behaviour shared by the two builtins (`Vm::print` / `Vm::println`):
render every argument (a `todo!()` rendering aborts the host, modelled as
`Option.none`), write the text to the external sink (outside this model) and
return `None`. -/
def applyBuiltin (args : List Value) : Option Value :=
  if args.all (fun a => (displayValue a).isSome) then some Value.none
  else Option.none

/-- Outcome of evaluating one expression: `Ok(value)` or `Err(error)`
together with the final state of the caller's `Vm` (which `eval_expr`
mutates in place), a host panic, or fuel exhaustion of the model. -/
inductive Res
  | ok (v : Value) (env : Env)
  | err (e : Error) (env : Env)
  | panic
  | timeout

/-- Sequencing of the `?` operator: continue on `Ok`, propagate everything
else. -/
def Res.andThen (r : Res) (f : Value → Env → Res) : Res :=
  match r with
  | .ok v env => f v env
  | .err e env => .err e env
  | .panic => .panic
  | .timeout => .timeout

/-- Lift a pure value-operation outcome into an evaluation outcome at the
current environment. -/
def liftV : VRes → Env → Res
  | .ok v, env => .ok v env
  | .err e, env => .err e env
  | .panic, _ => .panic

/-- The `Expr::Block` loop: evaluate each expression in order in the same
environment, keeping the last value (`None` for an empty body). -/
def evalSeq (ev : Env → Expr → Res) : Env → Value → List Expr → Res
  | env, last, [] => .ok last env
  | env, _, e :: es =>
    match ev env e with
    | .ok v env' => evalSeq ev env' v es
    | .err er env' => .err er env'
    | .panic => .panic
    | .timeout => .timeout

/-- The `Expr::List` loop: evaluate the elements left to right and collect
them. -/
def evalElems (ev : Env → Expr → Res) : Env → List Value → List Expr → Res
  | env, acc, [] => .ok (.list acc.reverse) env
  | env, acc, e :: es =>
    match ev env e with
    | .ok v env' => evalElems ev env' (v :: acc) es
    | .err er env' => .err er env'
    | .panic => .panic
    | .timeout => .timeout

/-- Result of collecting builtin-call arguments: evaluation errors are
swallowed (the argument becomes `None`), so only a panic or fuel exhaustion
can interrupt the loop. -/
inductive ArgsRes
  | ok (vs : List Value) (env : Env)
  | panic
  | timeout

/-- The builtin-call argument loop of `Expr::Call`: each argument is
evaluated in the current environment and an `Err` outcome is replaced by
`None` (keeping the environment mutations made before the failure). -/
def evalArgsSwallow (ev : Env → Expr → Res) : Env → List Value → List Expr → ArgsRes
  | env, acc, [] => .ok acc.reverse env
  | env, acc, e :: es =>
    match ev env e with
    | .ok v env' => evalArgsSwallow ev env' (v :: acc) es
    | .err _ env' => evalArgsSwallow ev env' (Value.none :: acc) es
    | .panic => .panic
    | .timeout => .timeout

/-- Result of binding user-call parameters: the callee environment under
construction plus the caller environment after argument evaluation. -/
inductive BindRes
  | ok (callee : Env) (env : Env)
  | err (e : Error) (env : Env)
  | panic
  | timeout

/-- The parameter-binding loop of a user `Expr::Call`: iterate over the
declared parameters, indexing the call-site argument vector positionally
(`cparg[i]`); when the arguments run out the indexing panics before anything
is evaluated.  Each argument is evaluated in the caller's environment and
errors propagate. -/
def bindArgs (ev : Env → Expr → Res) : Env → Env → List String → List Expr → BindRes
  | env, callee, [], _ => .ok callee env
  | _, _, _ :: _, [] => .panic
  | env, callee, p :: ps, a :: rest =>
    match ev env a with
    | .ok v env' => bindArgs ev env' (setA callee p v) ps rest
    | .err er env' => .err er env'
    | .panic => .panic
    | .timeout => .timeout

/-- The `Expr::For` body loop: bind the loop variable in the current
environment (overwriting), evaluate the body there, and keep the last body
value. -/
def forList (ev : Env → Expr → Res) (name : String) (body : Expr) : Env → Value → List Value → Res
  | env, last, [] => .ok last env
  | env, _, item :: rest =>
    match ev (setA env name item) body with
    | .ok v env' => forList ev name body env' v rest
    | .err er env' => .err er env'
    | .panic => .panic
    | .timeout => .timeout

/-- The integers of a Rust `Range<isize>` iteration, in order (empty when
`start ≥ stop`). -/
def rangeList (start stop : Int) : List Int :=
  (List.range (stop - start).toNat).map (fun k => start + k)

/-- Result of the `Expr::CallStruct` argument loops: the field map under
construction plus the current environment. -/
inductive MRes
  | ok (m : List (String × Value)) (env : Env)
  | err (e : Error) (env : Env)
  | panic
  | timeout

/-- The inner `Expr::CallStruct` loop over the struct's declared fields: for
each declared field equal to the supplied identifier, evaluate the supplied
expression again and insert the result under that field. -/
def structFieldsLoop (ev : Env → Expr → Res) (valueE : Expr) (a : String) :
    List String → Env → List (String × Value) → MRes
  | [], env, m => .ok m env
  | f :: fs, env, m =>
    if f = a then
      match ev env valueE with
      | .ok v env' => structFieldsLoop ev valueE a fs env' (setA m f v)
      | .err er env' => .err er env'
      | .panic => .panic
      | .timeout => .timeout
    else structFieldsLoop ev valueE a fs env m

/-- The outer `Expr::CallStruct` loop over the supplied pairs: the key must
be a bare identifier, the supplied expression is evaluated once
unconditionally (`_v`), and then the declared-fields loop runs. -/
def structArgsLoop (ev : Env → Expr → Res) (fields : List String) :
    List (Expr × Expr) → Env → List (String × Value) → MRes
  | [], env, m => .ok m env
  | (aE, vE) :: rest, env, m =>
    match aE with
    | .ident a =>
      match ev env vE with
      | .ok _ env1 =>
        match structFieldsLoop ev vE a fields env1 m with
        | .ok m' env2 => structArgsLoop ev fields rest env2 m'
        | .err er env2 => .err er env2
        | .panic => .panic
        | .timeout => .timeout
      | .err er env1 => .err er env1
      | .panic => .panic
      | .timeout => .timeout
    | _ => .err (.typeMismatch "ident" "unknown") env

/-- Outcome of a discarded evaluation (the `let _case = self.eval_expr(i.0)`
of `Expr::Match`): both `Ok` and `Err` just leave their environment behind. -/
inductive DRes
  | cont (env : Env)
  | panic
  | timeout

/-- Discard the value-or-error of an evaluation, keeping the environment. -/
def discardRes : Res → DRes
  | .ok _ env => .cont env
  | .err _ env => .cont env
  | .panic => .panic
  | .timeout => .timeout

/-- The `Expr::Match` case loop: per case, evaluate the pattern and discard
its outcome entirely (value or error), evaluate the scrutinee (errors
propagate) and discard its value, then evaluate the body in a fresh empty
`Vm` (errors propagate); the running result is the last body value. -/
def matchCasesLoop (ev : Env → Expr → Res) (scrut : Expr) :
    List (Expr × Expr) → Env → Value → Res
  | [], env, ret => .ok ret env
  | (pat, body) :: rest, env, _ =>
    match discardRes (ev env pat) with
    | .cont env1 =>
      match ev env1 scrut with
      | .ok _ env2 =>
        match ev [] body with
        | .ok bv _ => matchCasesLoop ev scrut rest env2 bv
        | .err er _ => .err er env2
        | .panic => .panic
        | .timeout => .timeout
      | .err er env2 => .err er env2
      | .panic => .panic
      | .timeout => .timeout
    | .panic => .panic
    | .timeout => .timeout

/-- Outcome of the `Expr::GetFunc` argument loop where each argument is
evaluated in a clone of the caller's `Vm` (mutations are discarded, errors
propagate). -/
inductive GRes
  | ok (vs : List Value)
  | err (e : Error)
  | panic
  | timeout

/-- The `Expr::GetFunc` argument loop. -/
def evalArgsClone (ev : Env → Expr → Res) (env : Env) : List Expr → List Value → GRes
  | [], acc => .ok acc.reverse
  | a :: rest, acc =>
    match ev env a with
    | .ok v _ => evalArgsClone ev env rest (v :: acc)
    | .err er _ => .err er
    | .panic => .panic
    | .timeout => .timeout

/-- Bind evaluated method arguments against the struct's declared field
identifiers positionally, stopping at the shorter list (the `zip` in
`Expr::GetFunc`). -/
def zipBind : Env → List String → List Value → Env
  | acc, k :: ks, v :: vs => zipBind (setA acc k v) ks vs
  | acc, _, _ => acc

/-- Extraction of bare identifiers from a parameter/field list (the loops in
`Expr::FunDef`, `Expr::StructDef`, `Expr::Impl`); a non-identifier entry
yields `TypeMismatch("ident", "unknown")`, modelled as `Option.none`. -/
def extractIdents : List Expr → Option (List String)
  | [] => some []
  | .ident s :: rest => (extractIdents rest).map (fun l => s :: l)
  | _ :: _ => Option.none

/-- The value of an `Expr::Literal`. -/
def litValue : Literal → Value
  | .num n => .num n
  | .str s => .str s
  | .bool b => .bool b

/-- The in-place numeric update shared by `Vm::iadd`, `isub`, `imul`,
`idiv`. -/
def iopNum : IOp → Rat → Rat → Rat
  | .iadd, v, b => v + b
  | .isub, v, b => v - b
  | .imul, v, b => v * b
  | .idiv, v, b => v / b

/-- `Vm::iadd` / `isub` / `imul` / `idiv` after the value operand has been
evaluated: the operand must be a `Number`, the variable must exist and hold a
`Number`; on success the binding is updated in place and the result is
`None`. -/
def iopApply (op : IOp) (a : String) (b : Value) (env : Env) : Res :=
  match b with
  | .num bn =>
    match getA env a with
    | some (.num vn) => .ok Value.none (setA env a (.num (iopNum op vn bn)))
    | some w => .err (.typeMismatch "number" (tyRender (getType w))) env
    | Option.none => .err (.varNotFound a) env
  | _ => .err (.typeMismatch "int or float" "unknown") env

/-- One step of `Vm::eval_expr`: the full node-kind dispatch, with every
recursive evaluation of a sub-expression performed by the supplied `ev`
(one fuel unit below). -/
def evalExprF (ev : Env → Expr → Res) (env : Env) : Expr → Res
  | .empty => .ok Value.none env
  | .block body => evalSeq ev env Value.none body
  | .lit l => .ok (litValue l) env
  | .ident s =>
    match getA env s with
    | some v => .ok v env
    | Option.none => .err (.varNotFound s) env
  | .binOp op l r =>
    (ev env l).andThen fun lv env1 =>
      (ev env1 r).andThen fun rv env2 =>
        liftV (applyOp op lv rv) env2
  | .ifThen c t =>
    (ev env c).andThen fun v env1 =>
      match v with
      | .bool true => ev env1 t
      | .bool false => .ok Value.none env1
      | _ => .err (.typeMismatch "bool" (tyRender (getType v))) env1
  | .ifThenElse c t e =>
    (ev env c).andThen fun v env1 =>
      match v with
      | .bool true => ev env1 t
      | .bool false => ev env1 e
      | _ => .err (.typeMismatch "bool" (tyRender (getType v))) env1
  | .assign name vE =>
    (ev env vE).andThen fun v env1 =>
      match getA env1 name with
      | some _ => .err (.varAlreadyDefined name) env1
      | Option.none => .ok Value.none (setA env1 name v)
  | .whileE c b =>
    (ev env c).andThen fun v env1 =>
      match v with
      | .bool true =>
        (ev env1 b).andThen fun _ env2 => ev env2 (.whileE c b)
      | _ => .ok Value.none env1
  | .forE nameE iterE body =>
    match nameE with
    | .ident n =>
      (ev env iterE).andThen fun itv env1 =>
        match itv with
        | .list xs => forList ev n body env1 Value.none xs
        | .range s e =>
          forList ev n body env1 Value.none
            ((rangeList s e).map fun i => Value.num (i : Rat))
        | _ => .err (.typeMismatch "list" (tyRender (getType itv))) env1
    | _ => .err (.typeMismatch "string" "ident") env
  | .funDef name argsE body =>
    if name ∈ builtinNames then .err (.isBuiltin name) env
    else
      match extractIdents argsE with
      | some ps =>
        .ok (.func name ps body) (setA env name (.func name ps body))
      | Option.none => .err (.typeMismatch "ident" "unknown") env
  | .call name args =>
    if name ∈ builtinNames then
      match evalArgsSwallow ev env [] args with
      | .ok vs env' =>
        match applyBuiltin vs with
        | some v => .ok v env'
        | Option.none => .panic
      | .panic => .panic
      | .timeout => .timeout
    else
      match getA env name with
      | some (.func fn ps body) =>
        match bindArgs ev env (setA [] fn (.func fn ps body)) ps args with
        | .ok callee env' =>
          match ev callee body with
          | .ok v _ => .ok v env'
          | .err er _ => .err er env'
          | .panic => .panic
          | .timeout => .timeout
        | .err er env' => .err er env'
        | .panic => .panic
        | .timeout => .timeout
      | some other => .err (.typeMismatch "function" (tyRender (getType other))) env
      | Option.none => .err (.functionNotFound name) env
  | .listE elems => evalElems ev env [] elems
  | .index nameE idxE =>
    match nameE with
    | .ident n =>
      match getA env n with
      | some (.list xs) =>
        (ev env idxE).andThen fun iv env1 =>
          match iv with
          | .num q =>
            if q < 0 then .err (.indexOutOfBounds (ratTrunc q) n) env1
            else if xs.length ≤ (ratTrunc q).toNat then
              .err (.indexOutOfBounds (ratTrunc q) n) env1
            else
              match xs.get? (ratTrunc q).toNat with
              | some v => .ok v env1
              | Option.none => .panic
          | .range s e =>
            if (xs.length : Int) ≤ s then .err (.indexOutOfBounds s n) env1
            else if (xs.length : Int) < e then .err (.indexOutOfBounds e n) env1
            else if 0 ≤ s then
              if s ≤ e then
                .ok (.list ((xs.drop s.toNat).take (e - s).toNat)) env1
              else .panic
            else .panic
          | _ => .err (.typeMismatch "number" (tyRender (getType iv))) env1
      | some other => .err (.typeMismatch "list" (tyRender (getType other))) env
      | Option.none => .err (.varNotFound n) env
    | _ => .err (.typeMismatch "ident" "unknown") env
  | .rangeE sE eE =>
    (ev env sE).andThen fun sv env1 =>
      (ev env1 eE).andThen fun evv env2 =>
        match sv with
        | .num a =>
          match evv with
          | .num b => .ok (.range (ratTrunc a) (ratTrunc b)) env2
          | _ => .err (.typeMismatch "number" (tyRender (getType evv))) env2
        | _ => .err (.typeMismatch "number" (tyRender (getType sv))) env2
  | .structDef name fieldsE =>
    match extractIdents fieldsE with
    | some fs => .ok Value.none (setA env name (.defStruct name fs []))
    | Option.none => .err (.typeMismatch "ident" "unknown") env
  | .callStructE name pairs =>
    match getA env name with
    | some (.defStruct _ fields _) =>
      match structArgsLoop ev fields pairs env [] with
      | .ok m env' => .ok (.callStruct name m) env'
      | .err er env' => .err er env'
      | .panic => .panic
      | .timeout => .timeout
    | some other => .err (.typeMismatch "struct" (tyRender (getType other))) env
    | Option.none => .err (.structNotFound name) env
  | .getAttr name attr =>
    match getA env name with
    | some (.callStruct _ fields) =>
      match getA fields attr with
      | some v => .ok v env
      | Option.none => .err (.attrNotFound attr) env
    | _ => .err (.typeMismatch "struct" "unknown") env
  | .implE sname mname argsE body =>
    match getA env sname with
    | some (.defStruct _ fields fns) =>
      match extractIdents argsE with
      | some ps =>
        .ok Value.none
          (setA env sname
            (.defStruct sname fields (setA fns mname (.func mname ps body))))
      | Option.none => .err (.typeMismatch "ident" "unknown") env
    | Option.none => .err (.structNotFound sname) env
    | some _ => .err (.typeMismatch "struct" "unknown") env
  | .getFunc name funcName args =>
    match getA env name with
    | some (.callStruct n fi) =>
      match getA env n with
      | some (.defStruct _ f fu) =>
        match getA fu funcName with
        | some s =>
          match evalArgsClone ev env args [] with
          | .ok vs =>
            match s with
            | .func _ _ body =>
              match ev (zipBind (setA [] "self" (.callStruct n fi)) f vs) body with
              | .ok v _ => .ok v env
              | .err er _ => .err er env
              | .panic => .panic
              | .timeout => .timeout
            | _ => .err (.typeMismatch "function" "unknown") env
          | .err er => .err er env
          | .panic => .panic
          | .timeout => .timeout
        | Option.none => .err (.functionNotFound funcName) env
      | _ => .err (.typeMismatch "struct" "unknown") env
    | _ => .err (.typeMismatch "struct" "unknown") env
  | .setVar name vE =>
    match getA env name with
    | Option.none => .err (.varNotFound name) env
    | some _ =>
      (ev env vE).andThen fun v env1 => .ok Value.none (setA env1 name v)
  | .iop op name vE =>
    (ev env vE).andThen fun v env1 => iopApply op name v env1
  | .matchE scrut cases => matchCasesLoop ev scrut cases env Value.none

/-- The fuel-indexed evaluator: `evalExpr (fuel+1)` runs one dispatch step
with all sub-evaluations at fuel `fuel`; at fuel 0 the model times out. -/
def evalExpr : Nat → Env → Expr → Res
  | 0, _, _ => .timeout
  | fuel + 1, env, e => evalExprF (evalExpr fuel) env e

/-- `true` exactly on `Value::Number`. -/
def isNumV : Value → Bool
  | .num _ => true
  | _ => false

/-- `true` exactly on `Value::Range`. -/
def isRangeV : Value → Bool
  | .range _ _ => true
  | _ => false

/-- Replace the environment component of a call outcome by the caller's
environment (a user call returns the body's value or error while the caller
keeps its own, argument-mutated environment). -/
def resWithEnv (r : Res) (env : Env) : Res :=
  match r with
  | .ok v _ => .ok v env
  | .err e _ => .err e env
  | .panic => .panic
  | .timeout => .timeout

/-- Value-or-error projection of an outcome, forgetting environments. -/
inductive ValOut
  | ok (v : Value)
  | err (e : Error)
  | panic
  | timeout

/-- Forget the environment component of an outcome. -/
def resValue : Res → ValOut
  | .ok v _ => .ok v
  | .err e _ => .err e
  | .panic => .panic
  | .timeout => .timeout

/-- The identifiers among the keys of supplied struct-construction pairs. -/
def pairIdents (pairs : List (Expr × Expr)) : List String :=
  pairs.filterMap (fun p =>
    match p.1 with
    | .ident s => some s
    | _ => Option.none)

/-- Pure model of the retention performed by the `Expr::CallStruct` loops on
one supplied pair whose value has already been computed: insert the value
under every declared field equal to the supplied identifier, in declaration
order. -/
def retainOne (fields : List String) (a : String) (v : Value)
    (m : List (String × Value)) : List (String × Value) :=
  fields.foldl (fun acc f => if f = a then setA acc f v else acc) m

/-- Pure model of the field map built by `Expr::CallStruct` when every
supplied value is a literal. -/
def retainedMap (fields : List String) (pairs : List (String × Literal)) :
    List (String × Value) :=
  pairs.foldl (fun m kl => retainOne fields kl.1 (litValue kl.2) m) []

/-- Struct-construction pairs whose keys are bare identifiers and whose
values are literals. -/
def litPairs (pairs : List (String × Literal)) : List (Expr × Expr) :=
  pairs.map (fun kl => (Expr.ident kl.1, Expr.lit kl.2))

section Lemmas

theorem getA_setA (m : List (String × Value)) (k k' : String) (v : Value) :
    getA (setA m k v) k' = if k = k' then some v else getA m k' := by
  induction m with
  | nil => simp [setA, getA]
  | cons kv rest ih =>
    obtain ⟨k0, v0⟩ := kv
    by_cases h0 : k0 = k
    · subst h0
      by_cases h1 : k0 = k' <;> simp [setA, getA, h1]
    · by_cases h1 : k0 = k'
      · subst h1
        have hk : ¬k = k0 := fun h => h0 h.symm
        simp [setA, getA, h0, hk]
      · simp [setA, getA, h0, h1, ih]

theorem evalExpr_succ (fuel : Nat) (env : Env) (e : Expr) :
    evalExpr (fuel + 1) env e = evalExprF (evalExpr fuel) env e := rfl

theorem evalExpr_zero (env : Env) (e : Expr) : evalExpr 0 env e = .timeout := rfl

theorem extractIdents_map (ps : List String) :
    extractIdents (ps.map Expr.ident) = some ps := by
  induction ps with
  | nil => rfl
  | cons p rest ih => simp [extractIdents, ih]

theorem bindArgs_panic (ev : Env → Expr → Res) :
    ∀ (args : List Expr) (ps : List String) (env acc callee env2 : Env),
      args.length < ps.length →
      bindArgs ev env acc (ps.take args.length) args = .ok callee env2 →
      bindArgs ev env acc ps args = .panic := by
  intro args
  induction args with
  | nil =>
    intro ps env acc callee env2 hlen _
    match ps, hlen with
    | p :: ps', _ => rfl
  | cons a rest ih =>
    intro ps env acc callee env2 hlen hok
    match ps with
    | [] => simp at hlen
    | p :: ps' =>
      have hlen' : rest.length < ps'.length := Nat.lt_of_succ_lt_succ hlen
      cases h : ev env a with
      | ok v env' =>
        simp [bindArgs, h, List.length_cons, List.take_succ_cons] at hok ⊢
        exact ih ps' env' (setA acc p v) callee env2 hlen' hok
      | err e env' => simp [bindArgs, h, List.length_cons, List.take_succ_cons] at hok
      | panic => simp [bindArgs, h, List.length_cons, List.take_succ_cons] at hok
      | timeout => simp [bindArgs, h, List.length_cons, List.take_succ_cons] at hok

theorem renderPairErr_some_some (mk : String → String → Error) (v w : Value)
    (sv sw : String) (hv : displayValue v = some sv) (hw : displayValue w = some sw) :
    renderPairErr mk v w = .err (mk sv sw) := by
  simp [renderPairErr, hv, hw]

theorem renderPairErr_left_none (mk : String → String → Error) (v w : Value)
    (hv : displayValue v = Option.none) : renderPairErr mk v w = .panic := by
  simp [renderPairErr, hv]

theorem renderPairErr_right_none (mk : String → String → Error) (v w : Value)
    (sv : String) (hv : displayValue v = some sv) (hw : displayValue w = Option.none) :
    renderPairErr mk v w = .panic := by
  simp [renderPairErr, hv, hw]

theorem displayValue_none_not_num (v : Value) (h : displayValue v = Option.none) :
    isNumV v = false := by
  cases v <;> first
  | rfl
  | simp [displayValue] at h

theorem value_add_fail (v w : Value) (h : (isNumV v && isNumV w) = false) :
    v.add w = renderPairErr Error.cannotAdd v w := by
  cases v <;> cases w <;> simp_all [isNumV] <;> rfl

theorem value_sub_fail (v w : Value) (h : (isNumV v && isNumV w) = false) :
    v.sub w = renderPairErr Error.cannotSub v w := by
  cases v <;> cases w <;> simp_all [isNumV] <;> rfl

theorem value_mul_fail (v w : Value) (h : (isNumV v && isNumV w) = false) :
    v.mul w = renderPairErr Error.cannotMul v w := by
  cases v <;> cases w <;> simp_all [isNumV] <;> rfl

theorem value_div_fail (v w : Value) (h : (isNumV v && isNumV w) = false) :
    v.div w = renderPairErr Error.cannotDiv v w := by
  cases v <;> cases w <;> simp_all [isNumV] <;> rfl

theorem value_mod_fail (v w : Value) (h : (isNumV v && isNumV w) = false) :
    v.modulo w = renderPairErr Error.cannotMod v w := by
  cases v <;> cases w <;> simp_all [isNumV] <;> rfl

theorem structFieldsLoop_not_mem (ev : Env → Expr → Res) (vE : Expr) (a : String) :
    ∀ (fields : List String) (env : Env) (m : List (String × Value)),
      a ∉ fields →
      structFieldsLoop ev vE a fields env m = .ok m env := by
  intro fields
  induction fields with
  | nil => intro env m _; rfl
  | cons f fs ih =>
    intro env m h
    simp [List.mem_cons, not_or] at h
    obtain ⟨hne, hnm⟩ := h
    have hfa : ¬f = a := fun hh => hne hh.symm
    simp [structFieldsLoop, hfa]
    exact ih env m hnm

theorem structFieldsLoop_count_one (ev : Env → Expr → Res) (vE : Expr) (a : String)
    (v2 : Value) :
    ∀ (fields : List String) (env env2 : Env) (m : List (String × Value)),
      fields.count a = 1 →
      ev env vE = .ok v2 env2 →
      structFieldsLoop ev vE a fields env m = .ok (setA m a v2) env2 := by
  intro fields
  induction fields with
  | nil => intro env env2 m hc _; simp [List.count_nil] at hc
  | cons f fs ih =>
    intro env env2 m hc hev
    by_cases hfa : f = a
    · subst hfa
      have hc0 : fs.count f = 0 := by simpa [List.count_cons_self] using hc
      have hnm : f ∉ fs := List.count_eq_zero.mp hc0
      simp [structFieldsLoop, hev]
      exact structFieldsLoop_not_mem ev vE f fs env2 (setA m f v2) hnm
    · have haf : ¬a = f := fun hh => hfa hh.symm
      have hc' : fs.count a = 1 := by simpa [List.count_cons, haf] using hc
      simp [structFieldsLoop, hfa]
      exact ih env env2 m hc' hev

theorem pairIdents_cons_ident (a : String) (vE : Expr) (rest : List (Expr × Expr)) :
    pairIdents ((Expr.ident a, vE) :: rest) = a :: pairIdents rest := rfl

theorem structArgsLoop_matched_step (ev : Env → Expr → Res) (fields : List String)
    (a : String) (vE : Expr) (rest : List (Expr × Expr)) (env env1 env2 : Env)
    (m : List (String × Value)) (v1 v2 : Value)
    (hc : fields.count a = 1)
    (h1 : ev env vE = .ok v1 env1)
    (h2 : ev env1 vE = .ok v2 env2) :
    structArgsLoop ev fields ((Expr.ident a, vE) :: rest) env m
      = structArgsLoop ev fields rest env2 (setA m a v2) := by
  simp [structArgsLoop, h1,
    structFieldsLoop_count_one ev vE a v2 fields env1 env2 m hc h2]

theorem structArgsLoop_unmatched_step (ev : Env → Expr → Res) (fields : List String)
    (a : String) (vE : Expr) (rest : List (Expr × Expr)) (env env1 : Env)
    (m : List (String × Value)) (v1 : Value)
    (ha : a ∉ fields)
    (h1 : ev env vE = .ok v1 env1) :
    structArgsLoop ev fields ((Expr.ident a, vE) :: rest) env m
      = structArgsLoop ev fields rest env1 m := by
  simp [structArgsLoop, h1, structFieldsLoop_not_mem ev vE a fields env1 m ha]

theorem structFieldsLoop_keys (ev : Env → Expr → Res) (vE : Expr) (a : String) :
    ∀ (fields : List String) (env env' : Env) (m m' : List (String × Value)),
      structFieldsLoop ev vE a fields env m = .ok m' env' →
      ∀ k w, getA m' k = some w → (getA m k).isSome = true ∨ (k ∈ fields ∧ k = a) := by
  intro fields
  induction fields with
  | nil =>
    intro env env' m m' h k w hk
    cases h
    exact Or.inl (by simp [hk])
  | cons f fs ih =>
    intro env env' m m' h k w hk
    by_cases hfa : f = a
    · subst hfa
      cases hev : ev env vE with
      | ok v envx =>
        simp [structFieldsLoop, hev] at h
        rcases ih envx env' (setA m f v) m' h k w hk with hs | ⟨hmem, hka⟩
        · rw [getA_setA] at hs
          by_cases hfk : f = k
          · exact Or.inr ⟨hfk ▸ List.mem_cons_self f fs, hfk.symm⟩
          · left
            simpa [hfk] using hs
        · exact Or.inr ⟨List.mem_cons_of_mem f hmem, hka⟩
      | err e envx => simp [structFieldsLoop, hev] at h
      | panic => simp [structFieldsLoop, hev] at h
      | timeout => simp [structFieldsLoop, hev] at h
    · simp [structFieldsLoop, hfa] at h
      rcases ih env env' m m' h k w hk with hs | ⟨hmem, hka⟩
      · exact Or.inl hs
      · exact Or.inr ⟨List.mem_cons_of_mem f hmem, hka⟩

theorem structArgsLoop_keys (ev : Env → Expr → Res) (fields : List String) :
    ∀ (pairs : List (Expr × Expr)) (env env' : Env) (m m' : List (String × Value)),
      structArgsLoop ev fields pairs env m = .ok m' env' →
      ∀ k w, getA m' k = some w →
        (getA m k).isSome = true ∨ (k ∈ fields ∧ k ∈ pairIdents pairs) := by
  intro pairs
  induction pairs with
  | nil =>
    intro env env' m m' h k w hk
    cases h
    exact Or.inl (by simp [hk])
  | cons p rest ih =>
    intro env env' m m' h k w hk
    obtain ⟨aE, vE⟩ := p
    cases aE
    case ident a =>
      cases hev : ev env vE with
      | ok v0 env1 =>
        cases hfl : structFieldsLoop ev vE a fields env1 m with
        | ok m1 env2 =>
          simp [structArgsLoop, hev, hfl] at h
          rcases ih env2 env' m1 m' h k w hk with hs | ⟨hmem, hrest⟩
          · obtain ⟨w', hw'⟩ := Option.isSome_iff_exists.mp hs
            rcases structFieldsLoop_keys ev vE a fields env1 env2 m m1 hfl k w' hw'
              with h1 | ⟨hf, hka⟩
            · exact Or.inl h1
            · exact Or.inr ⟨hf, by simp [pairIdents_cons_ident, hka]⟩
          · exact Or.inr ⟨hmem, by simp [pairIdents_cons_ident, hrest]⟩
        | err e env2 => simp [structArgsLoop, hev, hfl] at h
        | panic => simp [structArgsLoop, hev, hfl] at h
        | timeout => simp [structArgsLoop, hev, hfl] at h
      | err e env1 => simp [structArgsLoop, hev] at h
      | panic => simp [structArgsLoop, hev] at h
      | timeout => simp [structArgsLoop, hev] at h
    all_goals simp [structArgsLoop] at h

theorem structFieldsLoop_lit (fuel : Nat) (l : Literal) (a : String) :
    ∀ (fields : List String) (env : Env) (m : List (String × Value)),
      structFieldsLoop (evalExpr (fuel + 1)) (.lit l) a fields env m
        = .ok (retainOne fields a (litValue l) m) env := by
  intro fields
  induction fields with
  | nil => intro env m; rfl
  | cons f fs ih =>
    intro env m
    by_cases hfa : f = a
    · simp [structFieldsLoop, hfa, evalExpr_succ, evalExprF, retainOne, List.foldl_cons, ih]
    · simp [structFieldsLoop, hfa, retainOne, List.foldl_cons, ih]

theorem structArgsLoop_lit (fuel : Nat) (fields : List String) :
    ∀ (pairs : List (String × Literal)) (env : Env) (m : List (String × Value)),
      structArgsLoop (evalExpr (fuel + 1)) fields (litPairs pairs) env m
        = .ok (pairs.foldl (fun acc kl => retainOne fields kl.1 (litValue kl.2) acc) m) env := by
  intro pairs
  induction pairs with
  | nil => intro env m; rfl
  | cons kl rest ih =>
    intro env m
    obtain ⟨k, l⟩ := kl
    simp [litPairs, structArgsLoop, evalExpr_succ, evalExprF, structFieldsLoop_lit]
    exact ih env (retainOne fields k (litValue l) m)

theorem resValue_resWithEnv (r : Res) (env : Env) :
    resValue (resWithEnv r env) = resValue r := by
  cases r <;> rfl

theorem bindArgs_keys (ev : Env → Expr → Res) :
    ∀ (ps : List String) (args : List Expr) (env acc callee env' : Env),
      bindArgs ev env acc ps args = .ok callee env' →
      ∀ x, getA acc x = Option.none → x ∉ ps → getA callee x = Option.none := by
  intro ps
  induction ps with
  | nil =>
    intro args env acc callee env' h x hacc _
    cases args <;> (cases h; exact hacc)
  | cons p ps' ih =>
    intro args env acc callee env' h x hacc hx
    cases args with
    | nil => simp [bindArgs] at h
    | cons aE rest =>
      simp [List.mem_cons, not_or] at hx
      obtain ⟨hxp, hxps⟩ := hx
      cases hev : ev env aE with
      | ok v env1 =>
        simp [bindArgs, hev] at h
        refine ih rest env1 (setA acc p v) callee env' h x ?_ hxps
        have hpx : ¬p = x := fun hh => hxp hh.symm
        rw [getA_setA]
        simp [hpx, hacc]
      | err e env1 => simp [bindArgs, hev] at h
      | panic => simp [bindArgs, hev] at h
      | timeout => simp [bindArgs, hev] at h

theorem call_user_char (fuel : Nat) (env env' callee : Env) (name fn : String)
    (ps : List String) (body : Expr) (args : List Expr)
    (hb : name ∉ builtinNames)
    (hf : getA env name = some (.func fn ps body))
    (hargs : bindArgs (evalExpr fuel) env (setA [] fn (.func fn ps body)) ps args
      = .ok callee env') :
    evalExpr (fuel + 1) env (.call name args)
      = resWithEnv (evalExpr fuel callee body) env' := by
  simp only [evalExpr_succ, evalExprF]
  rw [if_neg hb, hf]
  simp only [hargs]
  cases hr : evalExpr fuel callee body <;> simp [resWithEnv, hr]

theorem matchCasesLoop_lit_indep (l1 l2 : Literal) :
    ∀ (cases : List (Expr × Expr)) (fuel : Nat) (env : Env) (ret : Value),
      matchCasesLoop (evalExpr fuel) (.lit l1) cases env ret
        = matchCasesLoop (evalExpr fuel) (.lit l2) cases env ret := by
  intro cases
  induction cases with
  | nil => intro fuel env ret; rfl
  | cons pb rest ih =>
    intro fuel env ret
    obtain ⟨pat, body⟩ := pb
    cases fuel with
    | zero => rfl
    | succ f =>
      simp only [matchCasesLoop]
      cases hd : discardRes (evalExpr (f + 1) env pat) with
      | cont env1 =>
        have h1 : evalExpr (f + 1) env1 (Expr.lit l1) = .ok (litValue l1) env1 := rfl
        have h2 : evalExpr (f + 1) env1 (Expr.lit l2) = .ok (litValue l2) env1 := rfl
        simp only [h1, h2]
        cases hb : evalExpr (f + 1) [] body <;> simp [hb, ih]
      | panic => simp
      | timeout => simp

theorem matchCasesLoop_last_ok (ev : Env → Expr → Res) (scrut : Expr) (p b : Expr) :
    ∀ (cs : List (Expr × Expr)) (env : Env) (ret rv : Value) (env' : Env),
      matchCasesLoop ev scrut (cs ++ [(p, b)]) env ret = .ok rv env' →
      ∃ envb, ev [] b = .ok rv envb := by
  intro cs
  induction cs with
  | nil =>
    intro env ret rv env' h
    simp only [List.nil_append] at h
    cases hd : discardRes (ev env p) with
    | cont env1 =>
      simp only [matchCasesLoop, hd] at h
      cases hs : ev env1 scrut with
      | ok sv env2 =>
        simp only [hs] at h
        cases hb : ev [] b with
        | ok bv envb =>
          simp only [hb, matchCasesLoop, Res.ok.injEq] at h
          exact ⟨envb, by rw [h.1]⟩
        | err e envb => simp [hb] at h
        | panic => simp [hb] at h
        | timeout => simp [hb] at h
      | err e env2 => simp [hs] at h
      | panic => simp [hs] at h
      | timeout => simp [hs] at h
    | panic => simp [matchCasesLoop, hd] at h
    | timeout => simp [matchCasesLoop, hd] at h
  | cons pb rest ih =>
    intro env ret rv env' h
    obtain ⟨pat, body⟩ := pb
    simp only [List.cons_append] at h
    cases hd : discardRes (ev env pat) with
    | cont env1 =>
      simp only [matchCasesLoop, hd] at h
      cases hs : ev env1 scrut with
      | ok sv env2 =>
        simp only [hs] at h
        cases hb : ev [] body with
        | ok bv envb =>
          simp only [hb] at h
          exact ih env2 bv rv env' h
        | err e envb => simp [hb] at h
        | panic => simp [hb] at h
        | timeout => simp [hb] at h
      | err e env2 => simp [hs] at h
      | panic => simp [hs] at h
      | timeout => simp [hs] at h
    | panic => simp [matchCasesLoop, hd] at h
    | timeout => simp [matchCasesLoop, hd] at h

end Lemmas

/-- C6: evaluating `Assign(name, v)` first evaluates `v`, then fails
`VarAlreadyDefined` if `name` is already bound (in the post-evaluation
environment) and otherwise binds `name` to the value and returns `None`
(never the bound value); evaluating `SetVar(name, v)` fails `VarNotFound`
when `name` is unbound (before evaluating `v`), and otherwise evaluates `v`,
overwrites the binding and returns `None`. -/
theorem C6_assign_setvar :
    (∀ (fuel : Nat) (env : Env) (n : String) (vE : Expr) (v : Value) (env1 : Env) (w : Value),
      evalExpr fuel env vE = .ok v env1 →
      getA env1 n = some w →
      evalExpr (fuel + 1) env (.assign n vE) = .err (.varAlreadyDefined n) env1) ∧
    (∀ (fuel : Nat) (env : Env) (n : String) (vE : Expr) (v : Value) (env1 : Env),
      evalExpr fuel env vE = .ok v env1 →
      getA env1 n = Option.none →
      evalExpr (fuel + 1) env (.assign n vE) = .ok Value.none (setA env1 n v)) ∧
    (∀ (fuel : Nat) (env : Env) (n : String) (vE : Expr),
      getA env n = Option.none →
      evalExpr (fuel + 1) env (.setVar n vE) = .err (.varNotFound n) env) ∧
    (∀ (fuel : Nat) (env : Env) (n : String) (w : Value) (vE : Expr) (v : Value) (env1 : Env),
      getA env n = some w →
      evalExpr fuel env vE = .ok v env1 →
      evalExpr (fuel + 1) env (.setVar n vE) = .ok Value.none (setA env1 n v)) := by
  refine ⟨?_, ?_, ?_, ?_⟩
  · intro fuel env n vE v env1 w hv hw
    simp [evalExpr_succ, evalExprF, Res.andThen, hv, hw]
  · intro fuel env n vE v env1 hv hw
    simp [evalExpr_succ, evalExprF, Res.andThen, hv, hw]
  · intro fuel env n vE h
    simp [evalExpr_succ, evalExprF, h]
  · intro fuel env n w vE v env1 hw hv
    simp [evalExpr_succ, evalExprF, Res.andThen, hw, hv]

/-- Witness for C6 at concrete programs: first `Assign` binds and returns
`None`, second `Assign` of the same name fails `VarAlreadyDefined`, `SetVar`
on an unbound name fails `VarNotFound`, `SetVar` on a bound name overwrites
and returns `None`. -/
theorem C6_assign_setvar_witness :
    evalExpr 2 [] (.assign "x" (.lit (.str "a"))) = .ok Value.none [("x", .str "a")] ∧
    evalExpr 2 [("x", .str "a")] (.assign "x" (.lit (.str "b")))
      = .err (.varAlreadyDefined "x") [("x", .str "a")] ∧
    evalExpr 2 [] (.setVar "x" (.lit (.str "b"))) = .err (.varNotFound "x") [] ∧
    evalExpr 2 [("x", .str "a")] (.setVar "x" (.lit (.str "b")))
      = .ok Value.none [("x", .str "b")] :=
  ⟨C6_assign_setvar.2.1 1 [] "x" (.lit (.str "a")) (.str "a") [] rfl rfl,
   C6_assign_setvar.1 1 [("x", .str "a")] "x" (.lit (.str "b")) (.str "b")
     [("x", .str "a")] (.str "a") rfl rfl,
   C6_assign_setvar.2.2.1 1 [] "x" (.lit (.str "b")) rfl,
   C6_assign_setvar.2.2.2 1 [("x", .str "a")] "x" (.str "a") (.lit (.str "b"))
     (.str "b") [("x", .str "a")] rfl rfl⟩

/-- C9: evaluating `FunDef` whose name equals a builtin name (`print` or
`println`, the whole builtin table) fails `IsBuiltin` before any binding
occurs, leaving the environment unchanged; for every non-builtin name with
bare-identifier parameters, `FunDef` binds the name to the `Function` value
and the expression's own result is that same `Function` value. -/
theorem C9_fundef :
    (∀ (fuel : Nat) (env : Env) (name : String) (args : List Expr) (body : Expr),
      name ∈ builtinNames →
      evalExpr (fuel + 1) env (.funDef name args body) = .err (.isBuiltin name) env) ∧
    (∀ (fuel : Nat) (env : Env) (name : String) (ps : List String) (body : Expr),
      name ∉ builtinNames →
      evalExpr (fuel + 1) env (.funDef name (ps.map Expr.ident) body)
        = .ok (.func name ps body) (setA env name (.func name ps body))) := by
  constructor
  · intro fuel env name args body h
    simp [evalExpr_succ, evalExprF, h]
  · intro fuel env name ps body h
    simp [evalExpr_succ, evalExprF, h, extractIdents_map]

/-- Witness for C9: defining `print` fails `IsBuiltin` with the environment
untouched; defining `f(a) = a` binds `f` and returns the `Function` value. -/
theorem C9_fundef_witness :
    evalExpr 1 [] (.funDef "print" [] .empty) = .err (.isBuiltin "print") [] ∧
    evalExpr 1 [] (.funDef "f" [.ident "a"] (.ident "a"))
      = .ok (.func "f" ["a"] (.ident "a")) [("f", .func "f" ["a"] (.ident "a"))] :=
  ⟨C9_fundef.1 0 [] "print" [] .empty (by decide),
   C9_fundef.2 0 [] "f" ["a"] (.ident "a") (by decide)⟩

/-- C7: a user-function call that supplies fewer call-site arguments than the
function's declared parameters performs an out-of-bounds access on the
argument vector (a host-level panic), rather than failing with an arity
error: with no arguments at all the panic is immediate, and in general it
happens as soon as the available argument prefix has been evaluated
successfully. -/
theorem C7_arity_panic :
    (∀ (fuel : Nat) (env : Env) (name fn p : String) (ps : List String) (body : Expr),
      name ∉ builtinNames →
      getA env name = some (.func fn (p :: ps) body) →
      evalExpr (fuel + 1) env (.call name []) = .panic) ∧
    (∀ (fuel : Nat) (env : Env) (name fn : String) (ps : List String) (body : Expr)
        (args : List Expr) (callee env2 : Env),
      name ∉ builtinNames →
      getA env name = some (.func fn ps body) →
      args.length < ps.length →
      bindArgs (evalExpr fuel) env (setA [] fn (.func fn ps body)) (ps.take args.length) args
        = .ok callee env2 →
      evalExpr (fuel + 1) env (.call name args) = .panic) := by
  constructor
  · intro fuel env name fn p ps body hb hf
    simp [evalExpr_succ, evalExprF, hb, hf, bindArgs]
  · intro fuel env name fn ps body args callee env2 hb hf hlen hok
    have hp := bindArgs_panic (evalExpr fuel) args ps env
      (setA [] fn (.func fn ps body)) callee env2 hlen hok
    simp [evalExpr_succ, evalExprF, hb, hf, hp]

/-- Witness for C7: calling a unary function with zero arguments panics, and
calling a binary function with one (successfully evaluated) argument
panics. -/
theorem C7_arity_panic_witness :
    evalExpr 1 [("f", .func "f" ["a"] .empty)] (.call "f" []) = .panic ∧
    evalExpr 2 [("g", .func "g" ["a", "b"] .empty)] (.call "g" [.lit (.str "v")]) = .panic :=
  ⟨C7_arity_panic.1 0 [("f", .func "f" ["a"] .empty)] "f" "f" "a" [] .empty
      (by decide) rfl,
   C7_arity_panic.2 1 [("g", .func "g" ["a", "b"] .empty)] "g" "g" ["a", "b"] .empty
      [.lit (.str "v")]
      [("g", .func "g" ["a", "b"] .empty), ("a", .str "v")]
      [("g", .func "g" ["a", "b"] .empty)]
      (by decide) rfl (by decide) rfl⟩

/-- C4 counterexample: `Value::add` with a `CallStruct` left operand and a
`Number` right operand does not return the claimed `CannotAdd` error — it
panics the host, because building the error payload calls the `todo!()`
rendering of the struct instance. -/
theorem C4_binop_counterexample :
    Value.add (.callStruct "P" []) (.num 1) = .panic := rfl

/-- C4 amended: `Number/Number` yields `Number(a op b)` for add, sub, mul,
div and modulo; every other operand pairing in which both operands have an
implemented textual rendering fails with the dedicated
`CannotAdd`/`CannotSub`/`CannotMul`/`CannotDiv`/`CannotMod` error carrying
the renderings of both operands; a pairing in which either operand's
rendering is unimplemented (`DefStruct`, `CallStruct`, `Enum`, `EnumCall`)
panics the host while building the error payload instead of returning the
error. -/
theorem C4_binop_arith_amended :
    (∀ a b : Rat,
      Value.add (.num a) (.num b) = .ok (.num (a + b)) ∧
      Value.sub (.num a) (.num b) = .ok (.num (a - b)) ∧
      Value.mul (.num a) (.num b) = .ok (.num (a * b)) ∧
      Value.div (.num a) (.num b) = .ok (.num (a / b)) ∧
      Value.modulo (.num a) (.num b) = .ok (.num (ratMod a b))) ∧
    (∀ (v w : Value) (sv sw : String),
      (isNumV v && isNumV w) = false →
      displayValue v = some sv →
      displayValue w = some sw →
      v.add w = .err (.cannotAdd sv sw) ∧
      v.sub w = .err (.cannotSub sv sw) ∧
      v.mul w = .err (.cannotMul sv sw) ∧
      v.div w = .err (.cannotDiv sv sw) ∧
      v.modulo w = .err (.cannotMod sv sw)) ∧
    (∀ v w : Value,
      displayValue v = Option.none →
      v.add w = .panic ∧ v.sub w = .panic ∧ v.mul w = .panic ∧
      v.div w = .panic ∧ v.modulo w = .panic) ∧
    (∀ (v w : Value) (sv : String),
      displayValue v = some sv →
      displayValue w = Option.none →
      v.add w = .panic ∧ v.sub w = .panic ∧ v.mul w = .panic ∧
      v.div w = .panic ∧ v.modulo w = .panic) := by
  refine ⟨fun a b => ⟨rfl, rfl, rfl, rfl, rfl⟩, ?_, ?_, ?_⟩
  · intro v w sv sw hn hv hw
    exact ⟨by rw [value_add_fail v w hn, renderPairErr_some_some _ _ _ _ _ hv hw],
           by rw [value_sub_fail v w hn, renderPairErr_some_some _ _ _ _ _ hv hw],
           by rw [value_mul_fail v w hn, renderPairErr_some_some _ _ _ _ _ hv hw],
           by rw [value_div_fail v w hn, renderPairErr_some_some _ _ _ _ _ hv hw],
           by rw [value_mod_fail v w hn, renderPairErr_some_some _ _ _ _ _ hv hw]⟩
  · intro v w hv
    have hn : (isNumV v && isNumV w) = false := by
      rw [displayValue_none_not_num v hv]
      rfl
    exact ⟨by rw [value_add_fail v w hn, renderPairErr_left_none _ _ _ hv],
           by rw [value_sub_fail v w hn, renderPairErr_left_none _ _ _ hv],
           by rw [value_mul_fail v w hn, renderPairErr_left_none _ _ _ hv],
           by rw [value_div_fail v w hn, renderPairErr_left_none _ _ _ hv],
           by rw [value_mod_fail v w hn, renderPairErr_left_none _ _ _ hv]⟩
  · intro v w sv hv hw
    have hn : (isNumV v && isNumV w) = false := by
      rw [displayValue_none_not_num w hw]
      exact Bool.and_false _
    exact ⟨by rw [value_add_fail v w hn, renderPairErr_right_none _ _ _ _ hv hw],
           by rw [value_sub_fail v w hn, renderPairErr_right_none _ _ _ _ hv hw],
           by rw [value_mul_fail v w hn, renderPairErr_right_none _ _ _ _ hv hw],
           by rw [value_div_fail v w hn, renderPairErr_right_none _ _ _ _ hv hw],
           by rw [value_mod_fail v w hn, renderPairErr_right_none _ _ _ _ hv hw]⟩

/-- Witness for C4 amended, at concrete operands: `"x" + true` (both
renderable, not both numbers) fails `CannotAdd("x", "true")`, and an
unrenderable `CallStruct` left operand makes `add` panic. -/
theorem C4_binop_arith_amended_witness :
    Value.add (.str "x") (.bool true) = .err (.cannotAdd "x" "true") ∧
    Value.add (.callStruct "P" []) (.bool true) = .panic :=
  ⟨(C4_binop_arith_amended.2.1 (.str "x") (.bool true) "x" "true"
      (by decide) rfl rfl).1,
   (C4_binop_arith_amended.2.2.1 (.callStruct "P" []) (.bool true) rfl).1⟩

/-- C5 counterexample: indexing the list `[10, 20, 30]` with the range
`2..1` does not return the (empty) list of elements in `[2, 1)` — both
bounds pass the code's checks (`start < len`, `end ≤ len`) and the host
panics at the slice `list[2..1]`. -/
theorem C5_index_counterexample :
    evalExpr 3 [("l", .list [.num 10, .num 20, .num 30])]
      (.index (.ident "l") (.rangeE (.lit (.num 2)) (.lit (.num 1)))) = .panic := rfl

/-- C5 amended: for an identifier bound to a `List`: a `Number` index that is
negative, or whose truncation is `≥` the list's length, fails
`IndexOutOfBounds`, and otherwise the element at the truncated position is
returned; a `Range` index first fails `IndexOutOfBounds(start)` when
`start ≥ length`, then `IndexOutOfBounds(end)` when `end > length`, and
otherwise returns the new sub-`List` of the elements in `[start, end)` when
`0 ≤ start ≤ end` — while a negative `start` or `start > end`, which pass
both checks, panic the host at the slice; an index of any other type fails
`TypeMismatch`. -/
theorem C5_index_amended :
    (∀ (fuel : Nat) (env : Env) (n : String) (xs : List Value) (idxE : Expr)
        (q : Rat) (env1 : Env),
      getA env n = some (.list xs) →
      evalExpr fuel env idxE = .ok (.num q) env1 →
      q < 0 →
      evalExpr (fuel + 1) env (.index (.ident n) idxE)
        = .err (.indexOutOfBounds (ratTrunc q) n) env1) ∧
    (∀ (fuel : Nat) (env : Env) (n : String) (xs : List Value) (idxE : Expr)
        (q : Rat) (env1 : Env),
      getA env n = some (.list xs) →
      evalExpr fuel env idxE = .ok (.num q) env1 →
      ¬q < 0 →
      xs.length ≤ (ratTrunc q).toNat →
      evalExpr (fuel + 1) env (.index (.ident n) idxE)
        = .err (.indexOutOfBounds (ratTrunc q) n) env1) ∧
    (∀ (fuel : Nat) (env : Env) (n : String) (xs : List Value) (idxE : Expr)
        (q : Rat) (env1 : Env) (v : Value),
      getA env n = some (.list xs) →
      evalExpr fuel env idxE = .ok (.num q) env1 →
      ¬q < 0 →
      xs.get? (ratTrunc q).toNat = some v →
      evalExpr (fuel + 1) env (.index (.ident n) idxE) = .ok v env1) ∧
    (∀ (fuel : Nat) (env : Env) (n : String) (xs : List Value) (idxE : Expr)
        (s e : Int) (env1 : Env),
      getA env n = some (.list xs) →
      evalExpr fuel env idxE = .ok (.range s e) env1 →
      (xs.length : Int) ≤ s →
      evalExpr (fuel + 1) env (.index (.ident n) idxE)
        = .err (.indexOutOfBounds s n) env1) ∧
    (∀ (fuel : Nat) (env : Env) (n : String) (xs : List Value) (idxE : Expr)
        (s e : Int) (env1 : Env),
      getA env n = some (.list xs) →
      evalExpr fuel env idxE = .ok (.range s e) env1 →
      ¬(xs.length : Int) ≤ s →
      (xs.length : Int) < e →
      evalExpr (fuel + 1) env (.index (.ident n) idxE)
        = .err (.indexOutOfBounds e n) env1) ∧
    (∀ (fuel : Nat) (env : Env) (n : String) (xs : List Value) (idxE : Expr)
        (s e : Int) (env1 : Env),
      getA env n = some (.list xs) →
      evalExpr fuel env idxE = .ok (.range s e) env1 →
      ¬(xs.length : Int) ≤ s →
      ¬(xs.length : Int) < e →
      0 ≤ s → s ≤ e →
      evalExpr (fuel + 1) env (.index (.ident n) idxE)
        = .ok (.list ((xs.drop s.toNat).take (e - s).toNat)) env1) ∧
    (∀ (fuel : Nat) (env : Env) (n : String) (xs : List Value) (idxE : Expr)
        (s e : Int) (env1 : Env),
      getA env n = some (.list xs) →
      evalExpr fuel env idxE = .ok (.range s e) env1 →
      ¬(xs.length : Int) ≤ s →
      ¬(xs.length : Int) < e →
      (s < 0 ∨ e < s) →
      evalExpr (fuel + 1) env (.index (.ident n) idxE) = .panic) ∧
    (∀ (fuel : Nat) (env : Env) (n : String) (xs : List Value) (idxE : Expr)
        (iv : Value) (env1 : Env),
      getA env n = some (.list xs) →
      evalExpr fuel env idxE = .ok iv env1 →
      isNumV iv = false →
      isRangeV iv = false →
      evalExpr (fuel + 1) env (.index (.ident n) idxE)
        = .err (.typeMismatch "number" (tyRender (getType iv))) env1) := by
  refine ⟨?_, ?_, ?_, ?_, ?_, ?_, ?_, ?_⟩
  · intro fuel env n xs idxE q env1 hl hi hq
    simp [evalExpr_succ, evalExprF, hl, hi, Res.andThen, hq]
  · intro fuel env n xs idxE q env1 hl hi hq hlen
    simp [evalExpr_succ, evalExprF, hl, hi, Res.andThen, hq, hlen]
  · intro fuel env n xs idxE q env1 v hl hi hq hv
    have hlt : (ratTrunc q).toNat < xs.length := (List.get?_eq_some.mp hv).1
    have hlen : ¬xs.length ≤ (ratTrunc q).toNat := Nat.not_le.mpr hlt
    have hv' : xs[(ratTrunc q).toNat]? = some v := by
      rw [← List.get?_eq_getElem?]
      exact hv
    simp [evalExpr_succ, evalExprF, hl, hi, Res.andThen, hq, hlen, hv']
  · intro fuel env n xs idxE s e env1 hl hi hs
    simp [evalExpr_succ, evalExprF, hl, hi, Res.andThen, hs]
  · intro fuel env n xs idxE s e env1 hl hi hs he
    simp [evalExpr_succ, evalExprF, hl, hi, Res.andThen, hs, he]
  · intro fuel env n xs idxE s e env1 hl hi hs he hs0 hse
    simp [evalExpr_succ, evalExprF, hl, hi, Res.andThen, hs, he, hs0, hse]
  · intro fuel env n xs idxE s e env1 hl hi hs he hbad
    rcases hbad with hneg | hinv
    · have hs0 : ¬0 ≤ s := Int.not_le.mpr hneg
      simp [evalExpr_succ, evalExprF, hl, hi, Res.andThen, hs, he, hs0]
    · by_cases hs0 : 0 ≤ s
      · have hse : ¬s ≤ e := Int.not_le.mpr hinv
        simp [evalExpr_succ, evalExprF, hl, hi, Res.andThen, hs, he, hs0, hse]
      · simp [evalExpr_succ, evalExprF, hl, hi, Res.andThen, hs, he, hs0]
  · intro fuel env n xs idxE iv env1 hl hi hnum hrange
    cases iv
    case num => simp [isNumV] at hnum
    case range => simp [isRangeV] at hrange
    all_goals simp [evalExpr_succ, evalExprF, hl, hi, Res.andThen, getType]

/-- Witness for C5 amended, over the list `[10, 20, 30]`: index `-1` and
index `3` fail `IndexOutOfBounds`, index `1` returns `20`, range `1..3`
returns `[20, 30]`, range `5..1` fails `IndexOutOfBounds(5)`, range `-1..2`
(both checks pass) panics, and a `Bool` index fails `TypeMismatch`. -/
theorem C5_index_amended_witness :
    evalExpr 2 [("l", .list [.num 10, .num 20, .num 30])]
      (.index (.ident "l") (.lit (.num (-1))))
      = .err (.indexOutOfBounds (-1) "l") [("l", .list [.num 10, .num 20, .num 30])] ∧
    evalExpr 2 [("l", .list [.num 10, .num 20, .num 30])]
      (.index (.ident "l") (.lit (.num 3)))
      = .err (.indexOutOfBounds 3 "l") [("l", .list [.num 10, .num 20, .num 30])] ∧
    evalExpr 2 [("l", .list [.num 10, .num 20, .num 30])]
      (.index (.ident "l") (.lit (.num 1)))
      = .ok (.num 20) [("l", .list [.num 10, .num 20, .num 30])] ∧
    evalExpr 3 [("l", .list [.num 10, .num 20, .num 30])]
      (.index (.ident "l") (.rangeE (.lit (.num 1)) (.lit (.num 3))))
      = .ok (.list [.num 20, .num 30]) [("l", .list [.num 10, .num 20, .num 30])] ∧
    evalExpr 3 [("l", .list [.num 10, .num 20, .num 30])]
      (.index (.ident "l") (.rangeE (.lit (.num 5)) (.lit (.num 1))))
      = .err (.indexOutOfBounds 5 "l") [("l", .list [.num 10, .num 20, .num 30])] ∧
    evalExpr 3 [("l", .list [.num 10, .num 20, .num 30])]
      (.index (.ident "l") (.rangeE (.lit (.num (-1))) (.lit (.num 2)))) = .panic ∧
    evalExpr 2 [("l", .list [.num 10, .num 20, .num 30])]
      (.index (.ident "l") (.lit (.bool true)))
      = .err (.typeMismatch "number" "bool") [("l", .list [.num 10, .num 20, .num 30])] := by
  refine ⟨?_, ?_, ?_, ?_, ?_, ?_, ?_⟩
  · exact C5_index_amended.1 1 [("l", .list [.num 10, .num 20, .num 30])] "l"
      [.num 10, .num 20, .num 30] (.lit (.num (-1))) (-1)
      [("l", .list [.num 10, .num 20, .num 30])] rfl rfl (by decide)
  · exact C5_index_amended.2.1 1 [("l", .list [.num 10, .num 20, .num 30])] "l"
      [.num 10, .num 20, .num 30] (.lit (.num 3)) 3
      [("l", .list [.num 10, .num 20, .num 30])] rfl rfl (by decide) (by decide)
  · exact C5_index_amended.2.2.1 1 [("l", .list [.num 10, .num 20, .num 30])] "l"
      [.num 10, .num 20, .num 30] (.lit (.num 1)) 1
      [("l", .list [.num 10, .num 20, .num 30])] (.num 20) rfl rfl (by decide) rfl
  · exact C5_index_amended.2.2.2.2.2.1 2 [("l", .list [.num 10, .num 20, .num 30])] "l"
      [.num 10, .num 20, .num 30] (.rangeE (.lit (.num 1)) (.lit (.num 3))) 1 3
      [("l", .list [.num 10, .num 20, .num 30])]
      rfl rfl (by decide) (by decide) (by decide) (by decide)
  · exact C5_index_amended.2.2.2.1 2 [("l", .list [.num 10, .num 20, .num 30])] "l"
      [.num 10, .num 20, .num 30] (.rangeE (.lit (.num 5)) (.lit (.num 1))) 5 1
      [("l", .list [.num 10, .num 20, .num 30])] rfl rfl (by decide)
  · exact C5_index_amended.2.2.2.2.2.2.1 2 [("l", .list [.num 10, .num 20, .num 30])] "l"
      [.num 10, .num 20, .num 30] (.rangeE (.lit (.num (-1))) (.lit (.num 2))) (-1) 2
      [("l", .list [.num 10, .num 20, .num 30])]
      rfl rfl (by decide) (by decide) (Or.inl (by decide))
  · exact C5_index_amended.2.2.2.2.2.2.2 1 [("l", .list [.num 10, .num 20, .num 30])] "l"
      [.num 10, .num 20, .num 30] (.lit (.bool true)) (.bool true)
      [("l", .list [.num 10, .num 20, .num 30])] rfl rfl (by decide) (by decide)

/-- C10: during struct construction, each supplied field expression is
evaluated once unconditionally, and once more for each declared field its
identifier matches: a pair whose identifier occurs exactly once among the
declared fields has its expression evaluated twice (both environment effects
thread through) and the map retains the second evaluation's value; a pair
matching no declared field still has its expression evaluated once, with its
effects kept and its value dropped.  The last conjunct instantiates this at
the `CallStruct` node for a single supplied pair. -/
theorem C10_struct_arg_double_eval :
    (∀ (fuel : Nat) (env env1 env2 : Env) (a : String) (vE : Expr)
        (fields : List String) (rest : List (Expr × Expr))
        (m : List (String × Value)) (v1 v2 : Value),
      fields.count a = 1 →
      evalExpr fuel env vE = .ok v1 env1 →
      evalExpr fuel env1 vE = .ok v2 env2 →
      structArgsLoop (evalExpr fuel) fields ((Expr.ident a, vE) :: rest) env m
        = structArgsLoop (evalExpr fuel) fields rest env2 (setA m a v2)) ∧
    (∀ (fuel : Nat) (env env1 : Env) (a : String) (vE : Expr)
        (fields : List String) (rest : List (Expr × Expr))
        (m : List (String × Value)) (v1 : Value),
      a ∉ fields →
      evalExpr fuel env vE = .ok v1 env1 →
      structArgsLoop (evalExpr fuel) fields ((Expr.ident a, vE) :: rest) env m
        = structArgsLoop (evalExpr fuel) fields rest env1 m) ∧
    (∀ (fuel : Nat) (env env1 env2 : Env) (sname dn : String) (fields : List String)
        (fns : List (String × Value)) (a : String) (vE : Expr) (v1 v2 : Value),
      getA env sname = some (.defStruct dn fields fns) →
      fields.count a = 1 →
      evalExpr fuel env vE = .ok v1 env1 →
      evalExpr fuel env1 vE = .ok v2 env2 →
      evalExpr (fuel + 1) env (.callStructE sname [(Expr.ident a, vE)])
        = .ok (.callStruct sname (setA [] a v2)) env2) := by
  refine ⟨?_, ?_, ?_⟩
  · intro fuel env env1 env2 a vE fields rest m v1 v2 hc h1 h2
    exact structArgsLoop_matched_step (evalExpr fuel) fields a vE rest env env1 env2
      m v1 v2 hc h1 h2
  · intro fuel env env1 a vE fields rest m v1 ha h1
    exact structArgsLoop_unmatched_step (evalExpr fuel) fields a vE rest env env1
      m v1 ha h1
  · intro fuel env env1 env2 sname dn fields fns a vE v1 v2 hs hc h1 h2
    have hstep := structArgsLoop_matched_step (evalExpr fuel) fields a vE [] env
      env1 env2 [] v1 v2 hc h1 h2
    simp only [evalExpr_succ, evalExprF, hs]
    rw [hstep]
    simp [structArgsLoop]

/-- Witness for C10 at a concrete side-effecting field expression (a flag
flip whose result differs between evaluations): over `struct S {a}` with
`x = true`, constructing `S { a: if x { x = false; "first" } else "second" }`
retains `"second"`, the second evaluation's value, and leaves `x = false`. -/
theorem C10_struct_arg_double_eval_witness :
    evalExpr 6 [("x", .bool true), ("S", .defStruct "S" ["a"] [])]
      (.callStructE "S" [(.ident "a",
        .ifThenElse (.ident "x")
          (.block [.setVar "x" (.lit (.bool false)), .lit (.str "first")])
          (.lit (.str "second")))])
      = .ok (.callStruct "S" [("a", .str "second")])
          [("x", .bool false), ("S", .defStruct "S" ["a"] [])] :=
  C10_struct_arg_double_eval.2.2 5
    [("x", .bool true), ("S", .defStruct "S" ["a"] [])]
    [("x", .bool false), ("S", .defStruct "S" ["a"] [])]
    [("x", .bool false), ("S", .defStruct "S" ["a"] [])]
    "S" "S" ["a"] [] "a"
    (.ifThenElse (.ident "x")
      (.block [.setVar "x" (.lit (.bool false)), .lit (.str "first")])
      (.lit (.str "second")))
    (.str "first") (.str "second")
    rfl (by decide) rfl rfl

/-- C8: constructing a struct instance over an existing definition keeps a
supplied pair's value only under identifiers that are declared fields —
every key of the resulting field map is both a declared field and a supplied
identifier, so unmatched pairs are dropped and unsupplied fields are absent,
with no error either way; when the supplied values are literals the result
is exactly `CallStruct{struct name, retained field map}` with the
environment unchanged. -/
theorem C8_struct_field_retention :
    (∀ (fuel : Nat) (env env' : Env) (sname dn : String) (fields : List String)
        (fns : List (String × Value)) (pairs : List (Expr × Expr)) (v : Value),
      getA env sname = some (.defStruct dn fields fns) →
      evalExpr (fuel + 1) env (.callStructE sname pairs) = .ok v env' →
      ∃ m, v = .callStruct sname m ∧
        ∀ k w, getA m k = some w → k ∈ fields ∧ k ∈ pairIdents pairs) ∧
    (∀ (fuel : Nat) (env : Env) (sname dn : String) (fields : List String)
        (fns : List (String × Value)) (pairs : List (String × Literal)),
      getA env sname = some (.defStruct dn fields fns) →
      evalExpr (fuel + 2) env (.callStructE sname (litPairs pairs))
        = .ok (.callStruct sname (retainedMap fields pairs)) env) := by
  constructor
  · intro fuel env env' sname dn fields fns pairs v hs hok
    cases hloop : structArgsLoop (evalExpr fuel) fields pairs env [] with
    | ok m env2 =>
      simp [evalExpr_succ, evalExprF, hs, hloop] at hok
      refine ⟨m, hok.1.symm, ?_⟩
      intro k w hk
      rcases structArgsLoop_keys (evalExpr fuel) fields pairs env env2 [] m hloop k w hk
        with hsme | hgood
      · simp [getA] at hsme
      · exact hgood
    | err e env2 => simp [evalExpr_succ, evalExprF, hs, hloop] at hok
    | panic => simp [evalExpr_succ, evalExprF, hs, hloop] at hok
    | timeout => simp [evalExpr_succ, evalExprF, hs, hloop] at hok
  · intro fuel env sname dn fields fns pairs hs
    simp [evalExpr_succ, evalExprF, hs, structArgsLoop_lit, retainedMap]

/-- Witness for C8 at the spec's example: after `struct Point {x, y}`,
constructing `Point { x: 1, z: 9 }` yields a `CallStruct` holding only
`x: 1` — `z` is dropped, `y` is absent, and no error is raised. -/
theorem C8_struct_field_retention_witness :
    evalExpr 3 [("Point", .defStruct "Point" ["x", "y"] [])]
      (.callStructE "Point" [(.ident "x", .lit (.num 1)), (.ident "z", .lit (.num 9))])
      = .ok (.callStruct "Point" [("x", .num 1)])
          [("Point", .defStruct "Point" ["x", "y"] [])] :=
  C8_struct_field_retention.2 1 [("Point", .defStruct "Point" ["x", "y"] [])]
    "Point" "Point" ["x", "y"] [] [("x", .num 1), ("z", .num 9)] rfl

/-- C2: a user-function call builds a brand-new environment holding only the
function rebound under its own name plus the parameters bound positionally to
the argument values evaluated in the caller's environment — the call's value
(or error) is exactly that of the body in this environment, so two calls
agreeing on the function value and on the callee environment built from the
evaluated argument values produce identical results regardless of any other
caller bindings; and a body referencing an identifier that is neither the
function's own name nor a parameter fails `VarNotFound` even if the caller
binds it. -/
theorem C2_call_isolation :
    (∀ (fuel : Nat) (env env' callee : Env) (name fn : String) (ps : List String)
        (body : Expr) (args : List Expr),
      name ∉ builtinNames →
      getA env name = some (.func fn ps body) →
      bindArgs (evalExpr fuel) env (setA [] fn (.func fn ps body)) ps args
        = .ok callee env' →
      evalExpr (fuel + 1) env (.call name args)
        = resWithEnv (evalExpr fuel callee body) env') ∧
    (∀ (fuel : Nat) (env1 env2 e1 e2 callee : Env) (name1 name2 fn : String)
        (ps : List String) (body : Expr) (args1 args2 : List Expr),
      name1 ∉ builtinNames → name2 ∉ builtinNames →
      getA env1 name1 = some (.func fn ps body) →
      getA env2 name2 = some (.func fn ps body) →
      bindArgs (evalExpr fuel) env1 (setA [] fn (.func fn ps body)) ps args1
        = .ok callee e1 →
      bindArgs (evalExpr fuel) env2 (setA [] fn (.func fn ps body)) ps args2
        = .ok callee e2 →
      resValue (evalExpr (fuel + 1) env1 (.call name1 args1))
        = resValue (evalExpr (fuel + 1) env2 (.call name2 args2))) ∧
    (∀ (fuel : Nat) (env env' callee : Env) (name fn x : String) (ps : List String)
        (args : List Expr),
      name ∉ builtinNames →
      getA env name = some (.func fn ps (.ident x)) →
      bindArgs (evalExpr (fuel + 1)) env (setA [] fn (.func fn ps (.ident x))) ps args
        = .ok callee env' →
      x ≠ fn → x ∉ ps →
      evalExpr (fuel + 2) env (.call name args) = .err (.varNotFound x) env') := by
  refine ⟨?_, ?_, ?_⟩
  · intro fuel env env' callee name fn ps body args hb hf hargs
    exact call_user_char fuel env env' callee name fn ps body args hb hf hargs
  · intro fuel env1 env2 e1 e2 callee name1 name2 fn ps body args1 args2
      hb1 hb2 hf1 hf2 ha1 ha2
    rw [call_user_char fuel env1 e1 callee name1 fn ps body args1 hb1 hf1 ha1,
      call_user_char fuel env2 e2 callee name2 fn ps body args2 hb2 hf2 ha2,
      resValue_resWithEnv, resValue_resWithEnv]
  · intro fuel env env' callee name fn x ps args hb hf hargs hxfn hxps
    rw [call_user_char (fuel + 1) env env' callee name fn ps (.ident x) args hb hf hargs]
    have hcal : getA callee x = Option.none := by
      refine bindArgs_keys (evalExpr (fuel + 1)) ps args env
        (setA [] fn (.func fn ps (.ident x))) callee env' hargs x ?_ hxps
      have hfx : ¬fn = x := fun hh => hxfn hh.symm
      simp [setA, getA, hfx]
    simp [evalExpr_succ, evalExprF, hcal, resWithEnv]

/-- Witness for C2 at a concrete call: `f(a) = z` called with one argument
fails `VarNotFound("z")` even though the caller binds `z`, and the call's
value-projection is identical from a caller that binds `z` and one that does
not. -/
theorem C2_call_isolation_witness :
    evalExpr 2 [("z", .str "secret"), ("f", .func "f" ["a"] (.ident "z"))]
      (.call "f" [.lit (.str "v")])
      = .err (.varNotFound "z")
          [("z", .str "secret"), ("f", .func "f" ["a"] (.ident "z"))] ∧
    resValue (evalExpr 2 [("z", .str "secret"), ("f", .func "f" ["a"] (.ident "z"))]
        (.call "f" [.lit (.str "v")]))
      = resValue (evalExpr 2 [("f", .func "f" ["a"] (.ident "z"))]
        (.call "f" [.lit (.str "v")])) :=
  ⟨C2_call_isolation.2.2 0
      [("z", .str "secret"), ("f", .func "f" ["a"] (.ident "z"))]
      [("z", .str "secret"), ("f", .func "f" ["a"] (.ident "z"))]
      [("f", .func "f" ["a"] (.ident "z")), ("a", .str "v")]
      "f" "f" "z" ["a"] [.lit (.str "v")]
      (by decide) rfl rfl (by decide) (by decide),
   C2_call_isolation.2.1 1
      [("z", .str "secret"), ("f", .func "f" ["a"] (.ident "z"))]
      [("f", .func "f" ["a"] (.ident "z"))]
      [("z", .str "secret"), ("f", .func "f" ["a"] (.ident "z"))]
      [("f", .func "f" ["a"] (.ident "z"))]
      [("f", .func "f" ["a"] (.ident "z")), ("a", .str "v")]
      "f" "f" "f" ["a"] (.ident "z") [.lit (.str "v")] [.lit (.str "v")]
      (by decide) (by decide) rfl rfl rfl rfl⟩

/-- C1: `Match` performs no dispatch: over a literal scrutinee the result is
identical for any two scrutinee values (the scrutinee's value is discarded,
never compared to a pattern); whenever the match succeeds, its value is the
one produced by the last case's body evaluated in a fresh empty environment;
and every case body is evaluated unconditionally — an error in an earlier
case's body aborts the match even though a later case exists. -/
theorem C1_match_no_dispatch :
    (∀ (fuel : Nat) (env : Env) (cases : List (Expr × Expr)) (l1 l2 : Literal),
      evalExpr fuel env (.matchE (.lit l1) cases)
        = evalExpr fuel env (.matchE (.lit l2) cases)) ∧
    (∀ (fuel : Nat) (env env' : Env) (l : Literal) (cs : List (Expr × Expr))
        (p b : Expr) (rv : Value),
      evalExpr (fuel + 1) env (.matchE (.lit l) (cs ++ [(p, b)])) = .ok rv env' →
      ∃ envb, evalExpr fuel [] b = .ok rv envb) ∧
    (∀ (fuel : Nat) (env envb : Env) (l pl : Literal) (b : Expr)
        (rest : List (Expr × Expr)) (e : Error),
      evalExpr fuel [] b = .err e envb →
      evalExpr (fuel + 1) env (.matchE (.lit l) ((.lit pl, b) :: rest))
        = .err e env) := by
  refine ⟨?_, ?_, ?_⟩
  · intro fuel env cases l1 l2
    cases fuel with
    | zero => rfl
    | succ f =>
      simp only [evalExpr_succ, evalExprF]
      exact matchCasesLoop_lit_indep l1 l2 cases f env Value.none
  · intro fuel env env' l cs p b rv h
    simp only [evalExpr_succ, evalExprF] at h
    exact matchCasesLoop_last_ok (evalExpr fuel) (.lit l) p b cs env Value.none rv env' h
  · intro fuel env envb l pl b rest e h
    cases fuel with
    | zero => simp [evalExpr_zero] at h
    | succ f =>
      have hpat : evalExpr (f + 1) env (Expr.lit pl) = .ok (litValue pl) env := rfl
      have hscr : evalExpr (f + 1) env (Expr.lit l) = .ok (litValue l) env := rfl
      have hun : evalExpr (f + 1 + 1) env (.matchE (.lit l) ((.lit pl, b) :: rest))
          = matchCasesLoop (evalExpr (f + 1)) (.lit l) ((.lit pl, b) :: rest) env
              Value.none := rfl
      rw [hun]
      simp only [matchCasesLoop, hpat, hscr, discardRes, h]

/-- Witness for C1 at a concrete match: scrutinee `1` and scrutinee `true`
give the same result over the same two cases; the successful match's value
comes from the last case's body; and an error in the first case's body
aborts a two-case match. -/
theorem C1_match_no_dispatch_witness :
    evalExpr 3 [] (.matchE (.lit (.num 1))
        [(.lit (.num 0), .lit (.str "a")), (.lit (.num 5), .lit (.str "b"))])
      = evalExpr 3 [] (.matchE (.lit (.bool true))
        [(.lit (.num 0), .lit (.str "a")), (.lit (.num 5), .lit (.str "b"))]) ∧
    (∃ envb, evalExpr 2 [] (.lit (.str "b")) = .ok (.str "b") envb) ∧
    evalExpr 3 [("w", .str "x")] (.matchE (.lit (.num 1))
        [(.lit (.num 0), .ident "q"), (.lit (.num 5), .lit (.str "b"))])
      = .err (.varNotFound "q") [("w", .str "x")] :=
  ⟨C1_match_no_dispatch.1 3 []
      [(.lit (.num 0), .lit (.str "a")), (.lit (.num 5), .lit (.str "b"))]
      (.num 1) (.bool true),
   C1_match_no_dispatch.2.1 2 [] [] (.num 1)
      [(.lit (.num 0), .lit (.str "a"))] (.lit (.num 5)) (.lit (.str "b"))
      (.str "b") rfl,
   C1_match_no_dispatch.2.2 2 [("w", .str "x")] [] (.num 1) (.num 0)
      (.ident "q") [(.lit (.num 5), .lit (.str "b"))] (.varNotFound "q") rfl⟩

/-- C3 counterexample: the claim's list of exceptions is incomplete.  The
sub-expression `Ident("y")` of a `Match` case pattern fails `VarNotFound`,
yet the enclosing `Match` succeeds — the pattern-evaluation error is
swallowed, and this is none of the claim's three exceptions (it is not a
builtin-call argument, not a `While` condition, and exception (c) concerns
only discarding the scrutinee's value, whose evaluation error does
propagate). -/
theorem C3_error_propagation_counterexample :
    evalExpr 2 [] (.ident "y") = .err (.varNotFound "y") [] ∧
    evalExpr 3 [] (.matchE (.lit (.num 1)) [(.ident "y", .lit (.num 2))])
      = .ok (.num 2) [] :=
  ⟨rfl, rfl⟩

/-- C3 amended: an error raised while evaluating a sub-expression aborts the
enclosing expression and propagates — shown below for every evaluation
position of every node kind — with exactly four exceptions: (a) an error
from a builtin-call argument is swallowed and the argument replaced with
`None`; (b) a `While` condition that evaluates to anything but `Bool(true)`
silently ends the loop; (c) `Match` discards the scrutinee's value (the
result over a literal scrutinee is independent of that value), though a
scrutinee evaluation *error* still propagates; and (d) `Match` also swallows
an error from evaluating a case's pattern expression, keeping only its
environment effects. -/
theorem C3_error_propagation_amended :
    (∀ (fuel : Nat) (env envX : Env) (X : Expr) (e : Error) (es : List Expr),
      evalExpr fuel env X = .err e envX →
      evalExpr (fuel + 1) env (.block (X :: es)) = .err e envX) ∧
    (∀ (fuel : Nat) (env envX : Env) (X : Expr) (e : Error) (op : Op) (r : Expr),
      evalExpr fuel env X = .err e envX →
      evalExpr (fuel + 1) env (.binOp op X r) = .err e envX) ∧
    (∀ (fuel : Nat) (env env1 envX : Env) (L X : Expr) (lv : Value) (e : Error) (op : Op),
      evalExpr fuel env L = .ok lv env1 →
      evalExpr fuel env1 X = .err e envX →
      evalExpr (fuel + 1) env (.binOp op L X) = .err e envX) ∧
    (∀ (fuel : Nat) (env envX : Env) (X t : Expr) (e : Error),
      evalExpr fuel env X = .err e envX →
      evalExpr (fuel + 1) env (.ifThen X t) = .err e envX) ∧
    (∀ (fuel : Nat) (env env1 envX : Env) (C X : Expr) (e : Error),
      evalExpr fuel env C = .ok (.bool true) env1 →
      evalExpr fuel env1 X = .err e envX →
      evalExpr (fuel + 1) env (.ifThen C X) = .err e envX) ∧
    (∀ (fuel : Nat) (env envX : Env) (X t el : Expr) (e : Error),
      evalExpr fuel env X = .err e envX →
      evalExpr (fuel + 1) env (.ifThenElse X t el) = .err e envX) ∧
    (∀ (fuel : Nat) (env env1 envX : Env) (C X el : Expr) (e : Error),
      evalExpr fuel env C = .ok (.bool true) env1 →
      evalExpr fuel env1 X = .err e envX →
      evalExpr (fuel + 1) env (.ifThenElse C X el) = .err e envX) ∧
    (∀ (fuel : Nat) (env env1 envX : Env) (C t X : Expr) (e : Error),
      evalExpr fuel env C = .ok (.bool false) env1 →
      evalExpr fuel env1 X = .err e envX →
      evalExpr (fuel + 1) env (.ifThenElse C t X) = .err e envX) ∧
    (∀ (fuel : Nat) (env envX : Env) (n : String) (X : Expr) (e : Error),
      evalExpr fuel env X = .err e envX →
      evalExpr (fuel + 1) env (.assign n X) = .err e envX) ∧
    (∀ (fuel : Nat) (env envX : Env) (X b : Expr) (e : Error),
      evalExpr fuel env X = .err e envX →
      evalExpr (fuel + 1) env (.whileE X b) = .err e envX) ∧
    (∀ (fuel : Nat) (env env1 envX : Env) (C X : Expr) (e : Error),
      evalExpr fuel env C = .ok (.bool true) env1 →
      evalExpr fuel env1 X = .err e envX →
      evalExpr (fuel + 1) env (.whileE C X) = .err e envX) ∧
    (∀ (fuel : Nat) (env envX : Env) (n : String) (X b : Expr) (e : Error),
      evalExpr fuel env X = .err e envX →
      evalExpr (fuel + 1) env (.forE (.ident n) X b) = .err e envX) ∧
    (∀ (fuel : Nat) (env env1 envX : Env) (n : String) (IT X : Expr) (v : Value)
        (e : Error),
      evalExpr fuel env IT = .ok (.list [v]) env1 →
      evalExpr fuel (setA env1 n v) X = .err e envX →
      evalExpr (fuel + 1) env (.forE (.ident n) IT X) = .err e envX) ∧
    (∀ (fuel : Nat) (env envX : Env) (name fn p : String) (ps : List String)
        (bd X : Expr) (rest : List Expr) (e : Error),
      name ∉ builtinNames →
      getA env name = some (.func fn (p :: ps) bd) →
      evalExpr fuel env X = .err e envX →
      evalExpr (fuel + 1) env (.call name (X :: rest)) = .err e envX) ∧
    (∀ (fuel : Nat) (env envB : Env) (name fn : String) (B : Expr) (e : Error),
      name ∉ builtinNames →
      getA env name = some (.func fn [] B) →
      evalExpr fuel (setA [] fn (.func fn [] B)) B = .err e envB →
      evalExpr (fuel + 1) env (.call name []) = .err e env) ∧
    (∀ (fuel : Nat) (env envX : Env) (X : Expr) (es : List Expr) (e : Error),
      evalExpr fuel env X = .err e envX →
      evalExpr (fuel + 1) env (.listE (X :: es)) = .err e envX) ∧
    (∀ (fuel : Nat) (env envX : Env) (n : String) (xs : List Value) (X : Expr)
        (e : Error),
      getA env n = some (.list xs) →
      evalExpr fuel env X = .err e envX →
      evalExpr (fuel + 1) env (.index (.ident n) X) = .err e envX) ∧
    (∀ (fuel : Nat) (env envX : Env) (X E2 : Expr) (e : Error),
      evalExpr fuel env X = .err e envX →
      evalExpr (fuel + 1) env (.rangeE X E2) = .err e envX) ∧
    (∀ (fuel : Nat) (env env1 envX : Env) (S X : Expr) (sv : Value) (e : Error),
      evalExpr fuel env S = .ok sv env1 →
      evalExpr fuel env1 X = .err e envX →
      evalExpr (fuel + 1) env (.rangeE S X) = .err e envX) ∧
    (∀ (fuel : Nat) (env envX : Env) (sname dn a : String) (fds : List String)
        (fns : List (String × Value)) (X : Expr) (rest : List (Expr × Expr))
        (e : Error),
      getA env sname = some (.defStruct dn fds fns) →
      evalExpr fuel env X = .err e envX →
      evalExpr (fuel + 1) env (.callStructE sname ((.ident a, X) :: rest))
        = .err e envX) ∧
    (∀ (fuel : Nat) (env envX : Env) (iname sn dn mname : String)
        (fi : List (String × Value)) (fds : List String)
        (fns : List (String × Value)) (mv : Value) (X : Expr) (rest : List Expr)
        (e : Error),
      getA env iname = some (.callStruct sn fi) →
      getA env sn = some (.defStruct dn fds fns) →
      getA fns mname = some mv →
      evalExpr fuel env X = .err e envX →
      evalExpr (fuel + 1) env (.getFunc iname mname (X :: rest)) = .err e env) ∧
    (∀ (fuel : Nat) (env envX : Env) (n : String) (w : Value) (X : Expr) (e : Error),
      getA env n = some w →
      evalExpr fuel env X = .err e envX →
      evalExpr (fuel + 1) env (.setVar n X) = .err e envX) ∧
    (∀ (fuel : Nat) (env envX : Env) (op : IOp) (n : String) (X : Expr) (e : Error),
      evalExpr fuel env X = .err e envX →
      evalExpr (fuel + 1) env (.iop op n X) = .err e envX) ∧
    (∀ (fuel : Nat) (env envX : Env) (pl : Literal) (X B : Expr)
        (rest : List (Expr × Expr)) (e : Error),
      evalExpr fuel env X = .err e envX →
      evalExpr (fuel + 1) env (.matchE X ((.lit pl, B) :: rest)) = .err e envX) ∧
    (∀ (fuel : Nat) (env envX : Env) (bn : String) (X : Expr) (e : Error),
      bn ∈ builtinNames →
      evalExpr fuel env X = .err e envX →
      evalExpr (fuel + 1) env (.call bn [X]) = .ok Value.none envX) ∧
    (∀ (fuel : Nat) (env env1 : Env) (C B : Expr) (v : Value),
      evalExpr fuel env C = .ok v env1 →
      v ≠ .bool true →
      evalExpr (fuel + 1) env (.whileE C B) = .ok Value.none env1) ∧
    (∀ (fuel : Nat) (env : Env) (l1 l2 : Literal) (cases : List (Expr × Expr)),
      evalExpr fuel env (.matchE (.lit l1) cases)
        = evalExpr fuel env (.matchE (.lit l2) cases)) ∧
    (∀ (fuel : Nat) (env envP : Env) (P : Expr) (l bl : Literal) (e : Error),
      evalExpr fuel env P = .err e envP →
      evalExpr (fuel + 1) env (.matchE (.lit l) [(P, .lit bl)])
        = .ok (litValue bl) envP) := by
  refine ⟨?_, ?_, ?_, ?_, ?_, ?_, ?_, ?_, ?_, ?_, ?_, ?_, ?_, ?_, ?_, ?_, ?_, ?_,
    ?_, ?_, ?_, ?_, ?_, ?_, ?_, ?_, ?_, ?_⟩
  · intro fuel env envX X e es hX
    simp [evalExpr_succ, evalExprF, evalSeq, hX]
  · intro fuel env envX X e op r hX
    simp [evalExpr_succ, evalExprF, Res.andThen, hX]
  · intro fuel env env1 envX L X lv e op hL hX
    simp [evalExpr_succ, evalExprF, Res.andThen, hL, hX]
  · intro fuel env envX X t e hX
    simp [evalExpr_succ, evalExprF, Res.andThen, hX]
  · intro fuel env env1 envX C X e hc hX
    simp [evalExpr_succ, evalExprF, Res.andThen, hc, hX]
  · intro fuel env envX X t el e hX
    simp [evalExpr_succ, evalExprF, Res.andThen, hX]
  · intro fuel env env1 envX C X el e hc hX
    simp [evalExpr_succ, evalExprF, Res.andThen, hc, hX]
  · intro fuel env env1 envX C t X e hc hX
    simp [evalExpr_succ, evalExprF, Res.andThen, hc, hX]
  · intro fuel env envX n X e hX
    simp [evalExpr_succ, evalExprF, Res.andThen, hX]
  · intro fuel env envX X b e hX
    simp [evalExpr_succ, evalExprF, Res.andThen, hX]
  · intro fuel env env1 envX C X e hc hX
    simp [evalExpr_succ, evalExprF, Res.andThen, hc, hX]
  · intro fuel env envX n X b e hX
    simp [evalExpr_succ, evalExprF, Res.andThen, hX]
  · intro fuel env env1 envX n IT X v e hit hX
    simp [evalExpr_succ, evalExprF, Res.andThen, hit, forList, hX]
  · intro fuel env envX name fn p ps bd X rest e hb hf hX
    simp only [evalExpr_succ, evalExprF]
    rw [if_neg hb, hf]
    simp [bindArgs, hX]
  · intro fuel env envB name fn B e hb hf hB
    simp only [evalExpr_succ, evalExprF]
    rw [if_neg hb, hf]
    simp [bindArgs, hB]
  · intro fuel env envX X es e hX
    simp [evalExpr_succ, evalExprF, evalElems, hX]
  · intro fuel env envX n xs X e hl hX
    simp [evalExpr_succ, evalExprF, Res.andThen, hl, hX]
  · intro fuel env envX X E2 e hX
    simp [evalExpr_succ, evalExprF, Res.andThen, hX]
  · intro fuel env env1 envX S X sv e hs hX
    simp [evalExpr_succ, evalExprF, Res.andThen, hs, hX]
  · intro fuel env envX sname dn a fds fns X rest e hs hX
    simp [evalExpr_succ, evalExprF, hs, structArgsLoop, hX]
  · intro fuel env envX iname sn dn mname fi fds fns mv X rest e hv hd hm hX
    simp [evalExpr_succ, evalExprF, hv, hd, hm, evalArgsClone, hX]
  · intro fuel env envX n w X e hbnd hX
    simp [evalExpr_succ, evalExprF, Res.andThen, hbnd, hX]
  · intro fuel env envX op n X e hX
    simp [evalExpr_succ, evalExprF, Res.andThen, hX]
  · intro fuel env envX pl X B rest e hX
    cases fuel with
    | zero => simp [evalExpr_zero] at hX
    | succ f =>
      have hpat : evalExpr (f + 1) env (Expr.lit pl) = .ok (litValue pl) env := rfl
      have hun : evalExpr (f + 1 + 1) env (.matchE X ((.lit pl, B) :: rest))
          = matchCasesLoop (evalExpr (f + 1)) X ((.lit pl, B) :: rest) env
              Value.none := rfl
      rw [hun]
      simp only [matchCasesLoop, hpat, discardRes, hX]
  · intro fuel env envX bn X e hbn hX
    simp only [evalExpr_succ, evalExprF]
    rw [if_pos hbn]
    simp [evalArgsSwallow, hX, applyBuiltin, displayValue]
  · intro fuel env env1 C B v hc hv
    cases v
    case bool b =>
      cases b
      case true => exact absurd rfl hv
      case false => simp [evalExpr_succ, evalExprF, Res.andThen, hc]
    all_goals simp [evalExpr_succ, evalExprF, Res.andThen, hc]
  · intro fuel env l1 l2 cases
    cases fuel with
    | zero => rfl
    | succ f =>
      simp only [evalExpr_succ, evalExprF]
      exact matchCasesLoop_lit_indep l1 l2 cases f env Value.none
  · intro fuel env envP P l bl e hP
    cases fuel with
    | zero => simp [evalExpr_zero] at hP
    | succ f =>
      have hscr : evalExpr (f + 1) envP (Expr.lit l) = .ok (litValue l) envP := rfl
      have hbody : evalExpr (f + 1) [] (Expr.lit bl) = .ok (litValue bl) [] := rfl
      have hun : evalExpr (f + 1 + 1) env (.matchE (.lit l) [(P, .lit bl)])
          = matchCasesLoop (evalExpr (f + 1)) (.lit l) [(P, .lit bl)] env
              Value.none := rfl
      rw [hun]
      simp only [matchCasesLoop, hP, discardRes, hscr, hbody]

/-- Witness for C3 amended, at concrete programs: an unbound identifier in a
`BinOp` left operand propagates; the same error as a builtin `print`
argument is swallowed and the call returns `None`; a `While` whose condition
is the non-`Bool` value `0` stops silently; and a failing `Match` case
pattern is swallowed, the match returning its body's value. -/
theorem C3_error_propagation_amended_witness :
    evalExpr 2 [] (.binOp .add (.ident "u") (.lit (.num 1)))
      = .err (.varNotFound "u") [] ∧
    evalExpr 2 [] (.call "print" [.ident "u"]) = .ok Value.none [] ∧
    evalExpr 2 [] (.whileE (.lit (.num 0)) .empty) = .ok Value.none [] ∧
    evalExpr 2 [] (.matchE (.lit (.num 1)) [(.ident "y", .lit (.num 7))])
      = .ok (.num 7) [] :=
  ⟨C3_error_propagation_amended.2.1 1 [] [] (.ident "u") (.varNotFound "u")
      .add (.lit (.num 1)) rfl,
   (C3_error_propagation_amended.2.2.2.2.2.2.2.2.2.2.2.2.2.2.2.2.2.2.2.2.2.2.2.2.1 :
      ∀ (fuel : Nat) (env envX : Env) (bn : String) (X : Expr) (e : Error),
        bn ∈ builtinNames → evalExpr fuel env X = .err e envX →
        evalExpr (fuel + 1) env (.call bn [X]) = .ok Value.none envX)
     1 [] [] "print" (.ident "u") (.varNotFound "u") (by decide) rfl,
   (C3_error_propagation_amended.2.2.2.2.2.2.2.2.2.2.2.2.2.2.2.2.2.2.2.2.2.2.2.2.2.1 :
      ∀ (fuel : Nat) (env env1 : Env) (C B : Expr) (v : Value),
        evalExpr fuel env C = .ok v env1 → v ≠ .bool true →
        evalExpr (fuel + 1) env (.whileE C B) = .ok Value.none env1)
     1 [] [] (.lit (.num 0)) .empty (.num 0) rfl
     (by intro h; exact Value.noConfusion h),
   (C3_error_propagation_amended.2.2.2.2.2.2.2.2.2.2.2.2.2.2.2.2.2.2.2.2.2.2.2.2.2.2.2 :
      ∀ (fuel : Nat) (env envP : Env) (P : Expr) (l bl : Literal) (e : Error),
        evalExpr fuel env P = .err e envP →
        evalExpr (fuel + 1) env (.matchE (.lit l) [(P, .lit bl)])
          = .ok (litValue bl) envP)
     1 [] [] (.ident "y") (.num 1) (.num 7) (.varNotFound "y") rfl⟩

end TLang
